import Mathlib

/-!
Verification development for the voxa-backend dialogue orchestration layer
(`src/routes/assistant.js`).  The definitions below are a shallow embedding of
the dialogue controller: slot sets, pending actions, the pending-action handler,
fresh intent detection and the record builders, translated directly from the
JavaScript source.  External collaborators (the NLU gateway, the Mongo storage
layer, locale/date rendering of the JS runtime) are modelled as explicit
parameters: a `GatewayOracle` carrying the structured payloads the gateway
returns during the turn, and a `JsEnv` carrying the date parsing/formatting
functions of the runtime.

JavaScript conventions captured here: `undefined`/`null` are both `Option.none`;
the `x || d` idiom is falsy-aware (empty string and numeric zero fall back to
the default); object spread `{...a, ...m}` is a shallow, presence-based merge.

Note on the source: inside the live document of `src/routes/assistant.js`
(everything before the revision separator), `createTask` and `createMeeting`
are each declared twice.  Under JavaScript function hoisting the later
declaration of each name is the one every call site sees, so the embeddings
`createTask`/`createMeeting` below follow the later declarations (the two
`createTask` copies are textually identical; the two `createMeeting` copies
differ, and the earlier, shadowed one is embedded as
`createMeetingShadowedDecl` for comparison).
-/

/-- JS truthiness-aware `x || d` for string-valued fields: `undefined`, `null`
and the empty string all fall back to the default. -/
def jsOrStr : Option String → String → String
  | some s, d => if s = "" then d else s
  | none, d => d

/-- JS truthiness of a string-valued field (`undefined`/`null`/`""` are falsy). -/
def jsTruthyStr : Option String → Bool
  | some s => !(s = "")
  | none => false

/-- JS truthiness-aware `x || d` for numeric fields: `undefined`, `null` and
`0` fall back to the default. -/
def jsOrInt : Option Int → Int → Int
  | some n, d => if n = 0 then d else n
  | none, d => d

/-- JS truthiness-aware `x || d` for boolean fields. -/
def jsOrBool : Option Bool → Bool → Bool
  | some b, d => b || d
  | none, d => d

/-- JS truthiness of a boolean field (`undefined` is falsy). -/
def jsTruthyBool : Option Bool → Bool
  | some b => b
  | none => false

/-- JS string interpolation of a possibly-undefined value. -/
def renderOptS : Option String → String
  | some s => s
  | none => "undefined"

/-- The `scheduleTime` sub-object of a slot set
(`{ fixedTime: "HH:mm" | null, minutesBeforeStart: number }`). -/
structure ScheduleTime where
  fixedTime : Option String := none
  minutesBeforeStart : Option Int := none
deriving DecidableEq

/-- The slot set under construction (`pendingAction.data` in the source): a
loosely-typed JS field bag, embedded with one optional field per key that the
source reads or writes.  Task-shaped data uses `startDateISO`; meeting-shaped
data uses `startTime`/`endTime`/`duration`/`recurrencePattern`. -/
structure SlotSet where
  title : Option String := none
  description : Option String := none
  startDateISO : Option String := none
  startTime : Option String := none
  endTime : Option String := none
  duration : Option Int := none
  isRoutine : Option Bool := none
  isRecurring : Option Bool := none
  scheduleType : Option String := none
  scheduleDays : Option (List String) := none
  scheduleTime : Option ScheduleTime := none
  recurrencePattern : Option String := none
deriving DecidableEq

/-- JS object spread `{...a, ...m}` on slot sets: a key present in `m`
overrides the key in `a`; nested objects are replaced wholesale. -/
def pick {α : Type} (m a : Option α) : Option α :=
  match m with
  | some v => some v
  | none => a

/-- Shallow merge of modifications `m` into data `a`, exactly the source's
`{ ...pendingAction.data, ...modifications }`. -/
def shallowMerge (a m : SlotSet) : SlotSet where
  title := pick m.title a.title
  description := pick m.description a.description
  startDateISO := pick m.startDateISO a.startDateISO
  startTime := pick m.startTime a.startTime
  endTime := pick m.endTime a.endTime
  duration := pick m.duration a.duration
  isRoutine := pick m.isRoutine a.isRoutine
  isRecurring := pick m.isRecurring a.isRecurring
  scheduleType := pick m.scheduleType a.scheduleType
  scheduleDays := pick m.scheduleDays a.scheduleDays
  scheduleTime := pick m.scheduleTime a.scheduleTime
  recurrencePattern := pick m.recurrencePattern a.recurrencePattern

/-- The merge the spec describes for claim comparison: identical to the shallow
merge on flat fields but merging the nested `scheduleTime` object
field-by-field instead of replacing it wholesale. -/
def specMergeFieldwise (a m : SlotSet) : SlotSet :=
  { shallowMerge a m with
    scheduleTime :=
      match m.scheduleTime, a.scheduleTime with
      | some ms, some sa => some ⟨pick ms.fixedTime sa.fixedTime, pick ms.minutesBeforeStart sa.minutesBeforeStart⟩
      | some ms, none => some ms
      | none, sa => sa }

/-- The two pending-action types the route ever stores. -/
inductive ActionType
  | create_task
  | schedule_meeting
deriving DecidableEq

/-- The JS string of the action type (used for the success action tag). -/
def ActionType.str : ActionType → String
  | .create_task => "create_task"
  | .schedule_meeting => "schedule_meeting"

/-- The persisted `pendingAction` sub-document of a Conversation.  Absent JS
fields are the neutral values (`false` / `[]`). -/
structure PendingAction where
  type : ActionType
  data : SlotSet
  needsRoutineConfirmation : Bool := false
  needsRoutineSchedule : Bool := false
  needsSpecificDays : Bool := false
  confirmationNeeded : Bool := false
  missingFields : List String := []
deriving DecidableEq

/-- One message of the conversation history. -/
structure ChatMessage where
  role : String
  content : String
deriving DecidableEq

/-- The persisted Conversation document. -/
structure Conversation where
  messages : List ChatMessage
  pendingAction : Option PendingAction := none
deriving DecidableEq

/-- The JS runtime facilities the route uses on dates: `new Date(s).getTime()`
(`parseMs`), `toISOString` of a millisecond instant (`msToISO`), the current
instant (`nowMs`) and the four locale renderings used in messages.  They are
environment parameters: the dialogue logic never inspects their output. -/
structure JsEnv where
  parseMs : String → Int
  msToISO : Int → String
  nowMs : Int
  localeDateFull : String → String
  localeTime12 : String → String
  localeDate : String → String
  localeTime : String → String

/-- A concrete environment used to evaluate the embedding on closed inputs. -/
def env0 : JsEnv where
  parseMs := fun _ => 0
  msToISO := fun _ => ""
  nowMs := 0
  localeDateFull := fun _ => ""
  localeTime12 := fun _ => ""
  localeDate := fun _ => ""
  localeTime := fun _ => ""

/-- A persisted Task/Meeting record as assembled by `createTask` /
`createMeeting` (the `reminderData` object handed to the Reminder model). -/
structure ReminderRecord where
  user : String
  type : String
  title : Option String
  description : String
  startDate : Option Int := none
  endDate : Option Int := none
  isCompleted : Bool := false
  isManualSchedule : Bool := false
  aiSuggested : Bool := true
  scheduleType : String := "one-day"
  scheduleTime : ScheduleTime := {}
  scheduleDays : List String := []
  notificationPreferenceMinutes : Int := 0
  icon : String := "star"
deriving DecidableEq

/-- `createTask` (effective declaration; both source copies are identical):
builds the Task reminder record from the confirmed slot set. -/
def createTask (env : JsEnv) (taskData : SlotSet) (userId : String) : ReminderRecord where
  user := userId
  type := "Task"
  title := taskData.title
  description := jsOrStr taskData.description ""
  startDate :=
    if jsTruthyStr taskData.startDateISO then some (env.parseMs (taskData.startDateISO.getD "")) else none
  isCompleted := false
  isManualSchedule :=
    if taskData.scheduleType = some "routine" then true else jsTruthyStr taskData.startDateISO
  aiSuggested := true
  scheduleType := jsOrStr taskData.scheduleType "one-day"
  scheduleTime := taskData.scheduleTime.getD ⟨none, some 15⟩
  scheduleDays := taskData.scheduleDays.getD []
  notificationPreferenceMinutes := jsOrInt (taskData.scheduleTime.bind ScheduleTime.minutesBeforeStart) 15
  icon := "star"

/-- `createMeeting` (effective declaration, the later of the two in the live
document): builds the Meeting reminder record.  Note it assigns the literal
`{ minutesBeforeStart: 10 }` to `scheduleTime` unconditionally. -/
def createMeeting (env : JsEnv) (meetingData : SlotSet) (userId : String) : ReminderRecord :=
  let duration := jsOrInt meetingData.duration 30
  let startMs :=
    if jsTruthyStr meetingData.startTime then env.parseMs (meetingData.startTime.getD "") else env.nowMs
  let endMs := startMs + duration * 60000
  { user := userId
    type := "Meeting"
    title := meetingData.title
    description := jsOrStr meetingData.description ""
    startDate := some startMs
    endDate := some endMs
    isManualSchedule := true
    scheduleType := "one-day"
    scheduleTime := ⟨none, some 10⟩
    notificationPreferenceMinutes := 10
    aiSuggested := true
    icon := "star" }

/-- The earlier `createMeeting` declaration (shadowed at runtime by the later
one): identical except that it keeps the slot set's `scheduleTime` when
present (`meetingData.scheduleTime || { minutesBeforeStart: 10 }`). -/
def createMeetingShadowedDecl (env : JsEnv) (meetingData : SlotSet) (userId : String) : ReminderRecord :=
  { createMeeting env meetingData userId with
    scheduleTime := meetingData.scheduleTime.getD ⟨none, some 10⟩ }

/-- Intent-detection payload (`detectActionWithGemini` JSON shape). -/
structure IntentAnalysis where
  intent : String
  data : SlotSet := {}
  missingFields : List String := []
  confidence : Int := 0
deriving DecidableEq

/-- Routine-likelihood payload (`checkIfRoutineActivity` JSON shape; the
source's catch-all fallback is `{likelyRoutine:false, confidence:0, question:""}`). -/
structure RoutineCheck where
  likelyRoutine : Bool := false
  confidence : Int := 0
  question : String := ""
deriving DecidableEq

/-- Confirmation-sentiment payload (`analyzeUserResponseWithGemini` JSON shape;
the source's catch-all fallback is intent `"unclear"` with no modifications). -/
structure UserIntentResult where
  intent : String := "unclear"
  modifications : SlotSet := {}
deriving DecidableEq

/-- Routine-schedule-choice payload (`analyzeRoutineScheduleWithGemini` JSON
shape; fallback is `"unclear"` with no days). -/
structure RoutineScheduleResult where
  scheduleType : String := "unclear"
  days : List String := []
deriving DecidableEq

/-- Day-extraction payload (`extractDaysFromMessageWithGemini` JSON shape;
fallback is the empty day list). -/
structure DaysResult where
  days : List String := []
deriving DecidableEq

/-- Field-extraction payload (`extractMissingFieldsWithGemini` JSON shape; the
source's catch-all fallback keeps the previous missing list). -/
structure ExtractResult where
  extractedData : SlotSet := {}
  allFieldsFilled : Bool := false
  remainingFields : List String := []
deriving DecidableEq

/-- The structured payloads returned by the external collaborators during one
turn, one field per call site.  `detect = none` models a gateway failure (or
non-parseable response) of intent detection; the other call sites already map
failures to their in-band fallback values.  `saveResult = some e` models a
storage commit throwing with message `e`; `none` models success. -/
structure GatewayOracle where
  detect : Option IntentAnalysis := none
  routineCheck : RoutineCheck := {}
  routineReply : UserIntentResult := {}
  schedulePick : RoutineScheduleResult := {}
  daysPick : DaysResult := {}
  confirmReply : UserIntentResult := {}
  extractFields : ExtractResult := {}
  saveResult : Option String := none
  chatReply : String := ""
deriving DecidableEq

/-- Day-code to name mapping of the confirmation summary. -/
def dayName (d : String) : String :=
  if d = "SU" then "Sunday"
  else if d = "MO" then "Monday"
  else if d = "TU" then "Tuesday"
  else if d = "WE" then "Wednesday"
  else if d = "TH" then "Thursday"
  else if d = "FR" then "Friday"
  else if d = "SA" then "Saturday"
  else d

/-- Result of `prepareActionConfirmation`. -/
structure Confirmation where
  confirmationMessage : String
  data : SlotSet
deriving DecidableEq

/-- `prepareActionConfirmation`: renders the deterministic human-readable
summary of the slot set (the Confirmation Manager's rendering step). -/
def prepareActionConfirmation (env : JsEnv) (type : ActionType) (data : SlotSet) : Confirmation :=
  match type with
  | .create_task =>
    let fixedTime := data.scheduleTime.bind ScheduleTime.fixedTime
    let scheduleInfo :=
      if jsTruthyStr data.startDateISO then
        let iso := data.startDateISO.getD ""
        let dateStr := env.localeDateFull iso
        if jsTruthyStr fixedTime then
          " on " ++ dateStr ++ " at " ++ fixedTime.getD ""
        else
          " on " ++ dateStr ++ " at " ++ env.localeTime12 iso
      else if jsTruthyStr fixedTime then
        " at " ++ fixedTime.getD ""
      else ""
    let mbs := data.scheduleTime.bind ScheduleTime.minutesBeforeStart
    let reminderInfo :=
      if jsOrInt mbs 0 ≠ 0 ∧ ¬jsTruthyStr fixedTime then
        " (" ++ toString (mbs.getD 0) ++ " min reminder)"
      else ""
    let days := data.scheduleDays.getD []
    let hasRoutine := jsTruthyBool data.isRoutine ∧ data.scheduleDays.isSome ∧ days.length > 0
    let routineInfo :=
      if hasRoutine then (if days.length = 7 then " (Daily Routine)" else " (Routine Task)") else ""
    let daysInfo :=
      if hasRoutine ∧ days.length ≠ 7 then
        "\n• Repeats: " ++ String.intercalate ", " (days.map dayName)
      else ""
    let msg := "📋 Task Details:\n" ++ "• Title: \"" ++ renderOptS data.title ++ "\"\n"
    let msg := if scheduleInfo ≠ "" then msg ++ "• Scheduled:" ++ scheduleInfo ++ reminderInfo ++ "\n" else msg
    let msg := if routineInfo ≠ "" then msg ++ "• Type:" ++ routineInfo else msg
    let msg := if daysInfo ≠ "" then msg ++ daysInfo else msg
    let msg := if routineInfo ≠ "" ∨ daysInfo ≠ "" then msg ++ "\n" else msg
    let msg :=
      if jsTruthyStr data.description ∧ data.description ≠ data.title then
        msg ++ "• Description: " ++ renderOptS data.description ++ "\n"
      else msg
    let msg := msg ++ "\nShould I create this task? (Yes/No, or tell me what to change)"
    ⟨msg, data⟩
  | .schedule_meeting =>
    let scheduleInfo :=
      if jsTruthyStr data.startTime then
        let iso := data.startTime.getD ""
        env.localeDateFull iso ++ " at " ++ env.localeTime12 iso
      else ""
    let durationInfo :=
      if jsOrInt data.duration 0 ≠ 0 then toString (data.duration.getD 0) ++ " minutes" else "30 minutes"
    let recurrenceInfo := if jsTruthyBool data.isRecurring then "Yes" else "No"
    let msg := "📅 Meeting Details:\n" ++ "• Title: \"" ++ renderOptS data.title ++ "\"\n"
    let msg := if scheduleInfo ≠ "" then msg ++ "• When: " ++ scheduleInfo ++ "\n" else msg
    let msg := msg ++ "• Duration: " ++ durationInfo ++ "\n" ++ "• Recurring: " ++ recurrenceInfo ++ "\n"
    let msg :=
      if jsTruthyStr data.description ∧ data.description ≠ data.title then
        msg ++ "• Description: " ++ renderOptS data.description ++ "\n"
      else msg
    let msg := msg ++ "\nShould I schedule this meeting? (Yes/No, or tell me what to change)"
    ⟨msg, data⟩

/-- `generateMissingFieldsQuestion`: the clarifying question of the Slot
Filler, naming known values and listing the still-missing ones. -/
def generateMissingFieldsQuestion (env : JsEnv) (missingFields : List String) (extractedData : SlotSet) : String :=
  let fieldMap := fun (f : String) =>
    if f = "title" then "a title or name"
    else if f = "startDateISO" then "a date and time"
    else if f = "duration" then "a duration (how long)"
    else if f = "description" then "more details or description"
    else f
  let extracted :=
    (if jsTruthyStr extractedData.title then ["\"" ++ renderOptS extractedData.title ++ "\""] else []) ++
    (if jsTruthyStr extractedData.startDateISO then
        let iso := extractedData.startDateISO.getD ""
        ["on " ++ env.localeDate iso ++ " at " ++ env.localeTime iso]
      else [])
  let missingList := String.intercalate " and " (missingFields.map fieldMap)
  let msg :=
    if extracted.length > 0 then
      "I understand you want to create " ++ String.intercalate " " extracted ++ ". "
    else ""
  msg ++ "Could you please provide " ++ missingList ++ "?"

/-- `detectActionWithGemini`: returns the analysis unless the gateway failed,
detected no intent, or reported confidence below 50. -/
def detectActionWithGemini (o : GatewayOracle) : Option IntentAnalysis :=
  match o.detect with
  | none => none
  | some a => if a.intent = "none" ∨ a.confidence < 50 then none else some a

/-- A fresh-detection outcome (`detectAction`'s returned action object). -/
structure DetectedAction where
  type : ActionType
  data : SlotSet
  needsRoutineConfirmation : Bool := false
  needsMoreInfo : Bool := false
  missingFields : List String := []
  confirmationNeeded : Bool := false
  question : String := ""
  confirmationMessage : String := ""
deriving DecidableEq

/-- `detectAction`: fresh intent detection on a turn without a pending action.
The first argument of the source (the last assistant response) is unused by
the detection logic and kept only for signature fidelity. -/
def detectAction (env : JsEnv) (o : GatewayOracle) (assistantResponse userMessage : String) :
    Option DetectedAction :=
  match detectActionWithGemini o with
  | none => none
  | some g =>
    if g.intent = "none" then none
    else if g.missingFields ≠ [] then
      let actionType := if g.intent = "task" then ActionType.create_task else ActionType.schedule_meeting
      some { type := actionType
             data := g.data
             needsMoreInfo := true
             missingFields := g.missingFields
             question := generateMissingFieldsQuestion env g.missingFields g.data }
    else if g.intent = "task" then
      let taskData : SlotSet :=
        { title := g.data.title
          description := some (jsOrStr g.data.description userMessage)
          scheduleType := some (jsOrStr g.data.scheduleType "one-day")
          startDateISO := g.data.startDateISO
          scheduleDays := some (g.data.scheduleDays.getD [])
          scheduleTime := some (g.data.scheduleTime.getD ⟨none, some 15⟩)
          isRoutine := some (jsOrBool g.data.isRoutine false) }
      let routineCheck := o.routineCheck
      if routineCheck.likelyRoutine && !jsTruthyBool g.data.isRoutine then
        some { type := .create_task
               data := taskData
               needsRoutineConfirmation := true
               question := routineCheck.question }
      else
        let confirmation := prepareActionConfirmation env .create_task taskData
        some { type := .create_task
               data := confirmation.data
               confirmationNeeded := true
               confirmationMessage := confirmation.confirmationMessage }
    else if g.intent = "meeting" then
      let duration := jsOrInt g.data.duration 30
      let startMs := env.parseMs (g.data.startDateISO.getD "")
      let endISO := env.msToISO (startMs + duration * 60000)
      let meetingData : SlotSet :=
        { title := g.data.title
          description := some (jsOrStr g.data.description userMessage)
          startTime := g.data.startDateISO
          endTime := some endISO
          duration := some duration
          isRecurring := some (jsTruthyBool g.data.isRecurring)
          recurrencePattern :=
            if jsTruthyBool g.data.isRecurring && g.data.scheduleDays.isSome then
              some ("FREQ=WEEKLY;BYDAY=" ++ String.intercalate "," (g.data.scheduleDays.getD []))
            else none
          scheduleTime := some (g.data.scheduleTime.getD ⟨none, some 10⟩) }
      let confirmation := prepareActionConfirmation env .schedule_meeting meetingData
      some { type := .schedule_meeting
             data := confirmation.data
             confirmationNeeded := true
             confirmationMessage := confirmation.confirmationMessage }
    else none


/-- The all-seven-days daily routine day set. -/
def allWeekDays : List String := ["MO", "TU", "WE", "TH", "FR", "SA", "SU"]

/-- Slot-set update of the specific-days branches
(`scheduleType='specific-days'`, chosen days, `isRoutine=true`). -/
def specificDaysData (d : SlotSet) (days : List String) : SlotSet :=
  { d with scheduleType := some "specific-days", scheduleDays := some days, isRoutine := some true }

/-- Slot-set update of the daily-routine branch. -/
def dailyRoutineData (d : SlotSet) : SlotSet :=
  { d with scheduleType := some "routine", scheduleDays := some allWeekDays, isRoutine := some true }

/-- Slot-set update of the routine-rejected branch
(`isRoutine=false`, `scheduleType='one-day'`). -/
def oneDayData (d : SlotSet) : SlotSet :=
  { d with isRoutine := some false, scheduleType := some "one-day" }

/-- A pending action holding data `d` with only `confirmationNeeded` set
(the shape every confirmation-offering branch stores). -/
def confirmPending (ty : ActionType) (d : SlotSet) : PendingAction :=
  { type := ty, data := d, confirmationNeeded := true }

/-- The five dispatch branches of `handlePendingAction`, in source order. -/
inductive FlowFlag
  | routineConfirmation
  | routineSchedule
  | specificDays
  | confirmation
  | missingInfo
deriving DecidableEq

/-- The machine-readable payload attached to a response (`data` key of the
returned result object). -/
inductive RespData
  | noData
  | slot (s : SlotSet)
  | record (r : ReminderRecord)
  | missing (missingFields : List String) (extractedFields : Option SlotSet)
deriving DecidableEq

/-- A non-null return value of `handlePendingAction`. -/
structure HPAResult where
  success : Bool
  response : String
  action : String
  data : RespData := .noData
deriving DecidableEq

/-- The full effect of one `handlePendingAction` call: its return value
(`none` models the JS `return null` fall-through to fresh detection), the
conversation's pending action after the call, the storage commits made, and
the dispatch branches entered in order (the trace of which `if` bodies ran,
recorded for the dispatch-precedence analysis). -/
structure HPAOutcome where
  result : Option HPAResult
  pendingAction : Option PendingAction
  commits : List ReminderRecord := []
  entered : List FlowFlag := []
deriving DecidableEq

/-- The routine-schedule question sent when the user accepts making a task a
routine. -/
def routineSchedulePrompt : String :=
  "Great! Would you like this as a:\n1. Daily routine (every day)\n2. Specific days of the week\n\nPlease specify which option you\x27d like."

/-- The original specific-days question (asked when the user picks specific
days without naming them). -/
def specificDaysPrompt : String :=
  "Please specify which days of the week:\nYou can say days like \x27Monday, Wednesday, Friday\x27 or \x27weekdays\x27 or \x27weekends\x27"

/-- The re-ask used when day extraction comes back empty in the
specific-days-collecting state. -/
def specificDaysRetryPrompt : String :=
  "I couldn\x27t understand the days. Please specify like \x27Monday and Wednesday\x27 or \x27weekdays\x27 or \x27Monday, Tuesday, Friday\x27"

/-- The re-prompt used when a confirmation-turn reply is unclear. -/
def awaitingConfirmationPrompt : String :=
  "I didn\x27t quite catch that. Would you like me to create this? Please say \x27yes\x27 to confirm, \x27no\x27 to cancel, or tell me what you\x27d like to change."

/-- The cancellation acknowledgment. -/
def cancelledPrompt : String :=
  "Okay, I won\x27t create that. Is there anything else I can help with?"

/-- Last dispatch check of `handlePendingAction`: the missing-information
branch (`pendingAction.missingFields && pendingAction.missingFields.length > 0`),
or the final `return null`. -/
def checkMissingFields (env : JsEnv) (o : GatewayOracle) (pa : PendingAction) (userId : String) :
    HPAOutcome :=
  if pa.missingFields ≠ [] then
    let extractedInfo := o.extractFields
    let updatedData := shallowMerge pa.data extractedInfo.extractedData
    if extractedInfo.allFieldsFilled then
      let conf := prepareActionConfirmation env pa.type updatedData
      { result := some ⟨true, conf.confirmationMessage, "confirm_action", .slot updatedData⟩
        pendingAction := some { type := pa.type, data := updatedData, confirmationNeeded := true }
        entered := [.missingInfo] }
    else
      { result := some ⟨true, generateMissingFieldsQuestion env extractedInfo.remainingFields updatedData,
                        "needs_info", .missing extractedInfo.remainingFields (some extractedInfo.extractedData)⟩
        pendingAction := some { pa with data := updatedData, missingFields := extractedInfo.remainingFields }
        entered := [.missingInfo] }
  else
    { result := none, pendingAction := some pa }

/-- Fourth dispatch check: the confirmation branch.  Every reply classification
(confirm / reject / modify / unclear) returns, so nothing below it runs. -/
def checkConfirmation (env : JsEnv) (o : GatewayOracle) (pa : PendingAction) (userId : String) :
    HPAOutcome :=
  if pa.confirmationNeeded then
    let userIntent := o.confirmReply
    if userIntent.intent = "confirm" then
      match pa.type with
      | .create_task =>
        let createdItem := createTask env pa.data userId
        match o.saveResult with
        | none =>
          { result := some ⟨true, "✅ Task \"" ++ renderOptS createdItem.title ++ "\" has been created successfully!",
                            "create_task_success", .record createdItem⟩
            pendingAction := none
            commits := [createdItem]
            entered := [.confirmation] }
        | some e =>
          { result := some ⟨false, "Sorry, I couldn\x27t create that. " ++ e, "creation_failed", .noData⟩
            pendingAction := some pa
            entered := [.confirmation] }
      | .schedule_meeting =>
        let createdItem := createMeeting env pa.data userId
        match o.saveResult with
        | none =>
          { result := some ⟨true, "✅ Meeting \"" ++ renderOptS createdItem.title ++ "\" has been scheduled successfully!",
                            "schedule_meeting_success", .record createdItem⟩
            pendingAction := none
            commits := [createdItem]
            entered := [.confirmation] }
        | some e =>
          { result := some ⟨false, "Sorry, I couldn\x27t create that. " ++ e, "creation_failed", .noData⟩
            pendingAction := some pa
            entered := [.confirmation] }
    else if userIntent.intent = "reject" then
      { result := some ⟨true, cancelledPrompt, "action_cancelled", .noData⟩
        pendingAction := none
        entered := [.confirmation] }
    else if userIntent.intent = "modify" then
      let updatedData := shallowMerge pa.data userIntent.modifications
      let conf := prepareActionConfirmation env pa.type updatedData
      { result := some ⟨true, "Got it! I\x27ve updated the details.\n\n" ++ conf.confirmationMessage,
                        "confirm_action", .slot updatedData⟩
        pendingAction := some { pa with data := updatedData }
        entered := [.confirmation] }
    else
      { result := some ⟨true, awaitingConfirmationPrompt, "awaiting_confirmation", .slot pa.data⟩
        pendingAction := some pa
        entered := [.confirmation] }
  else
    checkMissingFields env o pa userId

/-- Third dispatch check: the specific-days-collecting branch.  Both of its
outcomes (days extracted / extraction empty) return. -/
def checkSpecificDays (env : JsEnv) (o : GatewayOracle) (pa : PendingAction) (userId : String) :
    HPAOutcome :=
  if pa.needsSpecificDays then
    let daysAnalysis := o.daysPick
    if daysAnalysis.days ≠ [] then
      let d1 := specificDaysData pa.data daysAnalysis.days
      let conf := prepareActionConfirmation env .create_task d1
      { result := some ⟨true, conf.confirmationMessage, "confirm_action", .slot d1⟩
        pendingAction := some (confirmPending .create_task d1)
        entered := [.specificDays] }
    else
      { result := some ⟨true, specificDaysRetryPrompt, "needs_specific_days", .slot pa.data⟩
        pendingAction := some pa
        entered := [.specificDays] }
  else
    checkConfirmation env o pa userId

/-- Second dispatch check: the routine-schedule branch.  The `daily` and
`specific-days` classifications return; an `unclear` classification falls
through to the next check (no `else` branch in the source). -/
def checkRoutineSchedule (env : JsEnv) (o : GatewayOracle) (pa : PendingAction) (userId : String) :
    HPAOutcome :=
  if pa.needsRoutineSchedule then
    let scheduleDetails := o.schedulePick
    if scheduleDetails.scheduleType = "daily" then
      let d1 := dailyRoutineData pa.data
      let conf := prepareActionConfirmation env .create_task d1
      { result := some ⟨true, conf.confirmationMessage, "confirm_action", .slot d1⟩
        pendingAction := some (confirmPending .create_task d1)
        entered := [.routineSchedule] }
    else if scheduleDetails.scheduleType = "specific-days" then
      if scheduleDetails.days ≠ [] then
        let d1 := specificDaysData pa.data scheduleDetails.days
        let conf := prepareActionConfirmation env .create_task d1
        { result := some ⟨true, conf.confirmationMessage, "confirm_action", .slot d1⟩
          pendingAction := some (confirmPending .create_task d1)
          entered := [.routineSchedule] }
      else
        { result := some ⟨true, specificDaysPrompt, "needs_specific_days", .slot pa.data⟩
          pendingAction := some { pa with needsRoutineSchedule := false, needsSpecificDays := true }
          entered := [.routineSchedule] }
    else
      let rest := checkSpecificDays env o pa userId
      { rest with entered := .routineSchedule :: rest.entered }
  else
    checkSpecificDays env o pa userId

/-- `handlePendingAction`: the Dialogue Controller's dispatch over the stored
pending action.  The first check is the routine-confirmation branch, whose
`confirm` and `reject` classifications return; any other classification falls
through to the next check.  The `message` parameter is kept for signature
fidelity (the gateway payloads it elicits live in the oracle). -/
def handlePendingAction (env : JsEnv) (o : GatewayOracle) (pa : PendingAction)
    (message userId : String) : HPAOutcome :=
  if pa.needsRoutineConfirmation then
    let userIntent := o.routineReply
    if userIntent.intent = "confirm" then
      let pa1 := { pa with
                   needsRoutineConfirmation := false
                   needsRoutineSchedule := true
                   data := { pa.data with isRoutine := some true } }
      { result := some ⟨true, routineSchedulePrompt, "needs_routine_schedule", .slot pa1.data⟩
        pendingAction := some pa1
        entered := [.routineConfirmation] }
    else if userIntent.intent = "reject" then
      let d1 := oneDayData pa.data
      let conf := prepareActionConfirmation env .create_task d1
      { result := some ⟨true, conf.confirmationMessage, "confirm_action", .slot d1⟩
        pendingAction := some (confirmPending .create_task d1)
        entered := [.routineConfirmation] }
    else
      let rest := checkRoutineSchedule env o pa userId
      { rest with entered := .routineConfirmation :: rest.entered }
  else
    checkRoutineSchedule env o pa userId

/-- The caller-facing response of one chat turn (`action = none` is the plain
conversational reply, which carries no action tag). -/
structure TurnResult where
  success : Bool
  response : String
  action : Option String := none
  data : RespData := .noData
deriving DecidableEq

/-- The full effect of one chat turn: the persisted Conversation at the end of
the turn, the response returned to the caller, and the storage commits made. -/
structure TurnOutcome where
  conversation : Conversation
  result : TurnResult
  commits : List ReminderRecord := []
deriving DecidableEq

/-- The system prompt seeded into a newly created conversation. -/
def SYSTEM_PROMPT : String :=
  "You are Bela, a helpful AI assistant. \nYour main functions are:\n1. Answer general questions helpfully and concisely\n2. Help users create tasks and meetings\n3. Provide productivity tips and suggestions\n\nWhen creating tasks or meetings, you should:\n- Ask for any missing information (title, time, date, etc.)\n- Confirm details before creating\n- Be friendly and professional in all responses"

/-- The part of the `/chat` route after the pending-action block: fresh intent
detection on the raw message, storing the detected action as the new pending
action and returning its prompt, else falling back to a plain conversational
reply (the Gemini chat completion), which is appended to the history. -/
def freshDetection (env : JsEnv) (o : GatewayOracle) (conv2 : Conversation)
    (message : String) : TurnOutcome :=
  let plainChat : TurnOutcome :=
    { conversation := { conv2 with messages := conv2.messages ++ [⟨"assistant", o.chatReply⟩] }
      result := ⟨true, o.chatReply, none, .noData⟩ }
  match detectAction env o (conv2.messages.getLast?.map ChatMessage.content |>.getD "") message with
  | some action =>
    if action.needsRoutineConfirmation then
      let pa1 : PendingAction := { type := action.type, data := action.data, needsRoutineConfirmation := true }
      { conversation := { conv2 with pendingAction := some pa1 }
        result := ⟨true, action.question, some "needs_routine_confirmation", .slot action.data⟩ }
    else if action.needsMoreInfo then
      let pa1 : PendingAction := { type := action.type, data := action.data, missingFields := action.missingFields }
      { conversation := { conv2 with pendingAction := some pa1 }
        result := ⟨true, action.question, some "needs_info", .missing action.missingFields none⟩ }
    else if action.confirmationNeeded then
      let pa1 : PendingAction := { type := action.type, data := action.data, confirmationNeeded := true }
      { conversation := { conv2 with pendingAction := some pa1 }
        result := ⟨true, action.confirmationMessage, some "confirm_action", .slot action.data⟩ }
    else plainChat
  | none => plainChat

/-- One turn of the `/chat` route: lazily create the conversation, append the
user message, try the pending-action handler, otherwise run fresh intent
detection, and fall back to a plain conversational reply. -/
def chatTurn (env : JsEnv) (o : GatewayOracle) (conv0 : Option Conversation)
    (message userId : String) : TurnOutcome :=
  let conv1 :=
    match conv0 with
    | some c => c
    | none => { messages := [⟨"system", SYSTEM_PROMPT⟩], pendingAction := none }
  let conv2 : Conversation := { conv1 with messages := conv1.messages ++ [⟨"user", message⟩] }
  let afterPending : Option TurnOutcome :=
    match conv2.pendingAction with
    | some pa =>
      let out := handlePendingAction env o pa message userId
      match out.result with
      | some r =>
        some { conversation := { messages := conv2.messages ++ [⟨"assistant", r.response⟩],
                                 pendingAction := out.pendingAction }
               result := ⟨r.success, r.response, some r.action, r.data⟩
               commits := out.commits }
      | none => none
    | none => none
  match afterPending with
  | some outcome => outcome
  | none => freshDetection env o conv2 message

/-- The first set flow flag in the source's check order. -/
def firstActiveFlag (pa : PendingAction) : Option FlowFlag :=
  if pa.needsRoutineConfirmation then some .routineConfirmation
  else if pa.needsRoutineSchedule then some .routineSchedule
  else if pa.needsSpecificDays then some .specificDays
  else if pa.confirmationNeeded then some .confirmation
  else if pa.missingFields ≠ [] then some .missingInfo
  else none

/-- How many flow flags a pending action has active (`missingFields` counts
when non-empty). -/
def activeFlagCount (pa : PendingAction) : Nat :=
  (if pa.needsRoutineConfirmation then 1 else 0) +
  (if pa.needsRoutineSchedule then 1 else 0) +
  (if pa.needsSpecificDays then 1 else 0) +
  (if pa.confirmationNeeded then 1 else 0) +
  (if pa.missingFields ≠ [] then 1 else 0)

theorem detectAction_kinds (env : JsEnv) (o : GatewayOracle) (ar um : String) (act : DetectedAction)
    (h : detectAction env o ar um = some act) :
    act.needsRoutineConfirmation = true ∨ act.needsMoreInfo = true ∨ act.confirmationNeeded = true := by
  unfold detectAction at h
  cases hd : detectActionWithGemini o
  case none => rw [hd] at h; exact absurd h (by simp)
  case some g =>
    rw [hd] at h
    dsimp only at h
    by_cases h1 : g.intent = "none"
    · simp [h1] at h
    · rw [if_neg h1] at h
      by_cases h2 : g.missingFields ≠ []
      · rw [if_pos h2] at h
        cases h
        simp
      · rw [if_neg h2] at h
        by_cases h3 : g.intent = "task"
        · rw [if_pos h3] at h
          by_cases h4 : (o.routineCheck.likelyRoutine && !jsTruthyBool g.data.isRoutine) = true
          · rw [if_pos h4] at h; cases h; simp
          · rw [if_neg h4] at h; cases h; simp
        · rw [if_neg h3] at h
          by_cases h5 : g.intent = "meeting"
          · rw [if_pos h5] at h; cases h; simp
          · rw [if_neg h5] at h; simp at h

theorem detectAction_needsMoreInfo_missing (env : JsEnv) (o : GatewayOracle) (ar um : String)
    (act : DetectedAction) (h : detectAction env o ar um = some act)
    (hm : act.needsMoreInfo = true) : act.missingFields ≠ [] := by
  unfold detectAction at h
  cases hd : detectActionWithGemini o
  case none => rw [hd] at h; exact absurd h (by simp)
  case some g =>
    rw [hd] at h
    dsimp only at h
    by_cases h1 : g.intent = "none"
    · simp [h1] at h
    · rw [if_neg h1] at h
      by_cases h2 : g.missingFields ≠ []
      · rw [if_pos h2] at h
        cases h
        exact h2
      · rw [if_neg h2] at h
        by_cases h3 : g.intent = "task"
        · rw [if_pos h3] at h
          by_cases h4 : (o.routineCheck.likelyRoutine && !jsTruthyBool g.data.isRoutine) = true
          · rw [if_pos h4] at h; cases h; simp at hm
          · rw [if_neg h4] at h; cases h; simp at hm
        · rw [if_neg h3] at h
          by_cases h5 : g.intent = "meeting"
          · rw [if_pos h5] at h; cases h; simp at hm
          · rw [if_neg h5] at h; simp at h
theorem checkConfirmation_eq_of_not (env : JsEnv) (o : GatewayOracle) (pa : PendingAction) (u : String)
    (h : pa.confirmationNeeded = false) :
    checkConfirmation env o pa u = checkMissingFields env o pa u := by
  unfold checkConfirmation; simp [h]

theorem checkSpecificDays_eq_of_not (env : JsEnv) (o : GatewayOracle) (pa : PendingAction) (u : String)
    (h : pa.needsSpecificDays = false) :
    checkSpecificDays env o pa u = checkConfirmation env o pa u := by
  unfold checkSpecificDays; simp [h]

theorem checkRoutineSchedule_eq_of_not (env : JsEnv) (o : GatewayOracle) (pa : PendingAction) (u : String)
    (h : pa.needsRoutineSchedule = false) :
    checkRoutineSchedule env o pa u = checkSpecificDays env o pa u := by
  unfold checkRoutineSchedule; simp [h]

theorem handlePendingAction_eq_of_not (env : JsEnv) (o : GatewayOracle) (pa : PendingAction) (m u : String)
    (h : pa.needsRoutineConfirmation = false) :
    handlePendingAction env o pa m u = checkRoutineSchedule env o pa u := by
  unfold handlePendingAction; simp [h]

theorem checkMissingFields_entered (env : JsEnv) (o : GatewayOracle) (pa : PendingAction) (u : String) :
    (checkMissingFields env o pa u).entered = if pa.missingFields ≠ [] then [FlowFlag.missingInfo] else [] := by
  unfold checkMissingFields
  by_cases h : pa.missingFields = [] <;> simp [h] <;> split <;> rfl

theorem checkConfirmation_entered_of (env : JsEnv) (o : GatewayOracle) (pa : PendingAction) (u : String)
    (h : pa.confirmationNeeded = true) :
    (checkConfirmation env o pa u).entered = [FlowFlag.confirmation] := by
  unfold checkConfirmation
  simp only [h, if_true]
  repeat' split
  all_goals rfl

theorem checkSpecificDays_entered_of (env : JsEnv) (o : GatewayOracle) (pa : PendingAction) (u : String)
    (h : pa.needsSpecificDays = true) :
    (checkSpecificDays env o pa u).entered = [FlowFlag.specificDays] := by
  unfold checkSpecificDays
  simp only [h, if_true]
  split <;> rfl

theorem checkRoutineSchedule_entered_shape (env : JsEnv) (o : GatewayOracle) (pa : PendingAction) (u : String)
    (h : pa.needsRoutineSchedule = true) :
    (checkRoutineSchedule env o pa u).entered = [FlowFlag.routineSchedule] ∨
    (checkRoutineSchedule env o pa u).entered =
      FlowFlag.routineSchedule :: (checkSpecificDays env o pa u).entered := by
  unfold checkRoutineSchedule
  simp only [h, if_true]
  split
  · left; rfl
  · split
    · split
      · left; rfl
      · left; rfl
    · right; rfl

theorem handlePendingAction_entered_shape (env : JsEnv) (o : GatewayOracle) (pa : PendingAction) (m u : String)
    (h : pa.needsRoutineConfirmation = true) :
    (handlePendingAction env o pa m u).entered = [FlowFlag.routineConfirmation] ∨
    (handlePendingAction env o pa m u).entered =
      FlowFlag.routineConfirmation :: (checkRoutineSchedule env o pa u).entered := by
  unfold handlePendingAction
  simp only [h, if_true]
  split
  · left; rfl
  · split
    · left; rfl
    · right; rfl
theorem checkMissingFields_count (env : JsEnv) (o : GatewayOracle) (pa : PendingAction) (u : String)
    (h1 : activeFlagCount pa = 1)
    (hwf : o.extractFields.allFieldsFilled = false → o.extractFields.remainingFields ≠ [])
    (pa' : PendingAction) (h : (checkMissingFields env o pa u).pendingAction = some pa') :
    activeFlagCount pa' = 1 := by
  unfold checkMissingFields at h
  by_cases hMF : pa.missingFields = []
  · simp [hMF] at h
    subst h
    exact h1
  · simp [hMF] at h
    by_cases hAF : o.extractFields.allFieldsFilled
    · simp [hAF] at h
      subst h
      simp [activeFlagCount, confirmPending]
    · simp [hAF] at h
      subst h
      have hrem := hwf (by simpa using hAF)
      rcases pa with ⟨ty, d, rc, rs, sd, cn, mf⟩
      cases rc <;> cases rs <;> cases sd <;> cases cn <;> simp_all [activeFlagCount, confirmPending]

theorem checkConfirmation_count (env : JsEnv) (o : GatewayOracle) (pa : PendingAction) (u : String)
    (h1 : activeFlagCount pa = 1)
    (hwf : o.extractFields.allFieldsFilled = false → o.extractFields.remainingFields ≠ [])
    (pa' : PendingAction) (h : (checkConfirmation env o pa u).pendingAction = some pa') :
    activeFlagCount pa' = 1 := by
  by_cases hCN : pa.confirmationNeeded
  · unfold checkConfirmation at h
    simp only [hCN, if_true] at h
    repeat' split at h
    all_goals (try simp at h)
    all_goals subst h
    all_goals
      rcases pa with ⟨ty, d, rc, rs, sd, cn, mf⟩
      cases rc <;> cases rs <;> cases sd <;> cases cn <;>
        by_cases hmf : mf = [] <;> simp_all [activeFlagCount, confirmPending]
  · rw [checkConfirmation_eq_of_not env o pa u (by simpa using hCN)] at h
    exact checkMissingFields_count env o pa u h1 hwf pa' h

theorem checkSpecificDays_count (env : JsEnv) (o : GatewayOracle) (pa : PendingAction) (u : String)
    (h1 : activeFlagCount pa = 1)
    (hwf : o.extractFields.allFieldsFilled = false → o.extractFields.remainingFields ≠ [])
    (pa' : PendingAction) (h : (checkSpecificDays env o pa u).pendingAction = some pa') :
    activeFlagCount pa' = 1 := by
  by_cases hSD : pa.needsSpecificDays
  · unfold checkSpecificDays at h
    simp only [hSD, if_true] at h
    split at h
    · simp at h; subst h; simp [activeFlagCount, confirmPending]
    · simp at h; subst h; exact h1
  · rw [checkSpecificDays_eq_of_not env o pa u (by simpa using hSD)] at h
    exact checkConfirmation_count env o pa u h1 hwf pa' h

theorem checkRoutineSchedule_count (env : JsEnv) (o : GatewayOracle) (pa : PendingAction) (u : String)
    (h1 : activeFlagCount pa = 1)
    (hwf : o.extractFields.allFieldsFilled = false → o.extractFields.remainingFields ≠ [])
    (pa' : PendingAction) (h : (checkRoutineSchedule env o pa u).pendingAction = some pa') :
    activeFlagCount pa' = 1 := by
  by_cases hRS : pa.needsRoutineSchedule
  · unfold checkRoutineSchedule at h
    simp only [hRS, if_true] at h
    split at h
    · simp at h; subst h; simp [activeFlagCount, confirmPending]
    · split at h
      · split at h
        · simp at h; subst h; simp [activeFlagCount, confirmPending]
        · simp at h
          subst h
          rcases pa with ⟨ty, d, rc, rs, sd, cn, mf⟩
          cases rc <;> cases rs <;> cases sd <;> cases cn <;>
            by_cases hmf : mf = [] <;> simp_all [activeFlagCount, confirmPending]
      · have : ({ checkSpecificDays env o pa u with
            entered := FlowFlag.routineSchedule :: (checkSpecificDays env o pa u).entered } :
            HPAOutcome).pendingAction = (checkSpecificDays env o pa u).pendingAction := rfl
        rw [this] at h
        exact checkSpecificDays_count env o pa u h1 hwf pa' h
  · rw [checkRoutineSchedule_eq_of_not env o pa u (by simpa using hRS)] at h
    exact checkSpecificDays_count env o pa u h1 hwf pa' h

theorem handlePendingAction_count (env : JsEnv) (o : GatewayOracle) (pa : PendingAction) (m u : String)
    (h1 : activeFlagCount pa = 1)
    (hwf : o.extractFields.allFieldsFilled = false → o.extractFields.remainingFields ≠ [])
    (pa' : PendingAction) (h : (handlePendingAction env o pa m u).pendingAction = some pa') :
    activeFlagCount pa' = 1 := by
  by_cases hRC : pa.needsRoutineConfirmation
  · unfold handlePendingAction at h
    simp only [hRC, if_true] at h
    split at h
    · simp at h
      subst h
      rcases pa with ⟨ty, d, rc, rs, sd, cn, mf⟩
      cases rc <;> cases rs <;> cases sd <;> cases cn <;>
        by_cases hmf : mf = [] <;> simp_all [activeFlagCount, confirmPending]
    · split at h
      · simp at h; subst h; simp [activeFlagCount, confirmPending]
      · have : ({ checkRoutineSchedule env o pa u with
            entered := FlowFlag.routineConfirmation :: (checkRoutineSchedule env o pa u).entered } :
            HPAOutcome).pendingAction = (checkRoutineSchedule env o pa u).pendingAction := rfl
        rw [this] at h
        exact checkRoutineSchedule_count env o pa u h1 hwf pa' h
  · rw [handlePendingAction_eq_of_not env o pa m u (by simpa using hRC)] at h
    exact checkRoutineSchedule_count env o pa u h1 hwf pa' h
theorem checkConfirmation_confirm_task_ok (env : JsEnv) (o : GatewayOracle) (pa : PendingAction) (u : String)
    (hCN : pa.confirmationNeeded = true) (hc : o.confirmReply.intent = "confirm")
    (hty : pa.type = .create_task) (hsv : o.saveResult = none) :
    checkConfirmation env o pa u =
      { result := some ⟨true, "✅ Task \"" ++ renderOptS (createTask env pa.data u).title ++
            "\" has been created successfully!", "create_task_success", .record (createTask env pa.data u)⟩
        pendingAction := none
        commits := [createTask env pa.data u]
        entered := [.confirmation] } := by
  unfold checkConfirmation
  simp [hCN, hc, hty, hsv]

theorem checkConfirmation_confirm_meeting_ok (env : JsEnv) (o : GatewayOracle) (pa : PendingAction) (u : String)
    (hCN : pa.confirmationNeeded = true) (hc : o.confirmReply.intent = "confirm")
    (hty : pa.type = .schedule_meeting) (hsv : o.saveResult = none) :
    checkConfirmation env o pa u =
      { result := some ⟨true, "✅ Meeting \"" ++ renderOptS (createMeeting env pa.data u).title ++
            "\" has been scheduled successfully!", "schedule_meeting_success", .record (createMeeting env pa.data u)⟩
        pendingAction := none
        commits := [createMeeting env pa.data u]
        entered := [.confirmation] } := by
  unfold checkConfirmation
  simp [hCN, hc, hty, hsv]

theorem checkConfirmation_confirm_fail (env : JsEnv) (o : GatewayOracle) (pa : PendingAction) (u e : String)
    (hCN : pa.confirmationNeeded = true) (hc : o.confirmReply.intent = "confirm")
    (hsv : o.saveResult = some e) :
    checkConfirmation env o pa u =
      { result := some ⟨false, "Sorry, I couldn\x27t create that. " ++ e, "creation_failed", .noData⟩
        pendingAction := some pa
        entered := [.confirmation] } := by
  unfold checkConfirmation
  cases hty : pa.type <;> simp [hCN, hc, hty, hsv]

theorem checkConfirmation_reject (env : JsEnv) (o : GatewayOracle) (pa : PendingAction) (u : String)
    (hCN : pa.confirmationNeeded = true) (hc : o.confirmReply.intent = "reject") :
    checkConfirmation env o pa u =
      { result := some ⟨true, cancelledPrompt, "action_cancelled", .noData⟩
        pendingAction := none
        entered := [.confirmation] } := by
  unfold checkConfirmation
  by_cases hc1 : o.confirmReply.intent = "confirm"
  · rw [hc] at hc1; exact absurd hc1 (by decide)
  · simp [hCN, hc, hc1]

theorem checkConfirmation_modify (env : JsEnv) (o : GatewayOracle) (pa : PendingAction) (u : String)
    (hCN : pa.confirmationNeeded = true) (hc : o.confirmReply.intent = "modify") :
    checkConfirmation env o pa u =
      { result := some ⟨true, "Got it! I\x27ve updated the details.\n\n" ++
            (prepareActionConfirmation env pa.type (shallowMerge pa.data o.confirmReply.modifications)).confirmationMessage,
          "confirm_action", .slot (shallowMerge pa.data o.confirmReply.modifications)⟩
        pendingAction := some { pa with data := shallowMerge pa.data o.confirmReply.modifications }
        entered := [.confirmation] } := by
  unfold checkConfirmation
  have hc1 : o.confirmReply.intent ≠ "confirm" := by rw [hc]; decide
  have hc2 : o.confirmReply.intent ≠ "reject" := by rw [hc]; decide
  simp [hCN, hc, hc1, hc2]

theorem checkConfirmation_unclear (env : JsEnv) (o : GatewayOracle) (pa : PendingAction) (u : String)
    (hCN : pa.confirmationNeeded = true) (hc1 : o.confirmReply.intent ≠ "confirm")
    (hc2 : o.confirmReply.intent ≠ "reject") (hc3 : o.confirmReply.intent ≠ "modify") :
    checkConfirmation env o pa u =
      { result := some ⟨true, awaitingConfirmationPrompt, "awaiting_confirmation", .slot pa.data⟩
        pendingAction := some pa
        entered := [.confirmation] } := by
  unfold checkConfirmation
  simp [hCN, hc1, hc2, hc3]

theorem checkSpecificDays_days (env : JsEnv) (o : GatewayOracle) (pa : PendingAction) (u : String)
    (hSD : pa.needsSpecificDays = true) (hdays : o.daysPick.days ≠ []) :
    checkSpecificDays env o pa u =
      { result := some ⟨true,
          (prepareActionConfirmation env .create_task (specificDaysData pa.data o.daysPick.days)).confirmationMessage,
          "confirm_action", .slot (specificDaysData pa.data o.daysPick.days)⟩
        pendingAction := some (confirmPending .create_task (specificDaysData pa.data o.daysPick.days))
        entered := [.specificDays] } := by
  unfold checkSpecificDays
  simp [hSD, hdays]

theorem checkSpecificDays_empty (env : JsEnv) (o : GatewayOracle) (pa : PendingAction) (u : String)
    (hSD : pa.needsSpecificDays = true) (hdays : o.daysPick.days = []) :
    checkSpecificDays env o pa u =
      { result := some ⟨true, specificDaysRetryPrompt, "needs_specific_days", .slot pa.data⟩
        pendingAction := some pa
        entered := [.specificDays] } := by
  unfold checkSpecificDays
  simp [hSD, hdays]

theorem checkRoutineSchedule_daily (env : JsEnv) (o : GatewayOracle) (pa : PendingAction) (u : String)
    (hRS : pa.needsRoutineSchedule = true) (hsp : o.schedulePick.scheduleType = "daily") :
    checkRoutineSchedule env o pa u =
      { result := some ⟨true,
          (prepareActionConfirmation env .create_task (dailyRoutineData pa.data)).confirmationMessage,
          "confirm_action", .slot (dailyRoutineData pa.data)⟩
        pendingAction := some (confirmPending .create_task (dailyRoutineData pa.data))
        entered := [.routineSchedule] } := by
  unfold checkRoutineSchedule
  simp [hRS, hsp]

theorem checkRoutineSchedule_specific_days (env : JsEnv) (o : GatewayOracle) (pa : PendingAction) (u : String)
    (hRS : pa.needsRoutineSchedule = true) (hsp : o.schedulePick.scheduleType = "specific-days")
    (hdays : o.schedulePick.days ≠ []) :
    checkRoutineSchedule env o pa u =
      { result := some ⟨true,
          (prepareActionConfirmation env .create_task (specificDaysData pa.data o.schedulePick.days)).confirmationMessage,
          "confirm_action", .slot (specificDaysData pa.data o.schedulePick.days)⟩
        pendingAction := some (confirmPending .create_task (specificDaysData pa.data o.schedulePick.days))
        entered := [.routineSchedule] } := by
  unfold checkRoutineSchedule
  have hsp1 : o.schedulePick.scheduleType ≠ "daily" := by rw [hsp]; decide
  simp [hRS, hsp, hsp1, hdays]

theorem checkRoutineSchedule_specific_empty (env : JsEnv) (o : GatewayOracle) (pa : PendingAction) (u : String)
    (hRS : pa.needsRoutineSchedule = true) (hsp : o.schedulePick.scheduleType = "specific-days")
    (hdays : o.schedulePick.days = []) :
    checkRoutineSchedule env o pa u =
      { result := some ⟨true, specificDaysPrompt, "needs_specific_days", .slot pa.data⟩
        pendingAction := some { pa with needsRoutineSchedule := false, needsSpecificDays := true }
        entered := [.routineSchedule] } := by
  unfold checkRoutineSchedule
  have hsp1 : o.schedulePick.scheduleType ≠ "daily" := by rw [hsp]; decide
  simp [hRS, hsp, hsp1, hdays]

theorem checkRoutineSchedule_unclear (env : JsEnv) (o : GatewayOracle) (pa : PendingAction) (u : String)
    (hRS : pa.needsRoutineSchedule = true) (hsp1 : o.schedulePick.scheduleType ≠ "daily")
    (hsp2 : o.schedulePick.scheduleType ≠ "specific-days") :
    checkRoutineSchedule env o pa u =
      { checkSpecificDays env o pa u with
        entered := FlowFlag.routineSchedule :: (checkSpecificDays env o pa u).entered } := by
  unfold checkRoutineSchedule
  simp [hRS, hsp1, hsp2]

theorem handlePendingAction_routine_confirm (env : JsEnv) (o : GatewayOracle) (pa : PendingAction) (m u : String)
    (hRC : pa.needsRoutineConfirmation = true) (hin : o.routineReply.intent = "confirm") :
    handlePendingAction env o pa m u =
      { result := some ⟨true, routineSchedulePrompt, "needs_routine_schedule",
          .slot { pa.data with isRoutine := some true }⟩
        pendingAction := some { pa with
          needsRoutineConfirmation := false
          needsRoutineSchedule := true
          data := { pa.data with isRoutine := some true } }
        entered := [.routineConfirmation] } := by
  unfold handlePendingAction
  simp [hRC, hin]

theorem handlePendingAction_routine_reject (env : JsEnv) (o : GatewayOracle) (pa : PendingAction) (m u : String)
    (hRC : pa.needsRoutineConfirmation = true) (hin : o.routineReply.intent = "reject") :
    handlePendingAction env o pa m u =
      { result := some ⟨true,
          (prepareActionConfirmation env .create_task (oneDayData pa.data)).confirmationMessage,
          "confirm_action", .slot (oneDayData pa.data)⟩
        pendingAction := some (confirmPending .create_task (oneDayData pa.data))
        entered := [.routineConfirmation] } := by
  unfold handlePendingAction
  have hin1 : o.routineReply.intent ≠ "confirm" := by rw [hin]; decide
  simp [hRC, hin, hin1]

theorem handlePendingAction_routine_unclear (env : JsEnv) (o : GatewayOracle) (pa : PendingAction) (m u : String)
    (hRC : pa.needsRoutineConfirmation = true) (hin1 : o.routineReply.intent ≠ "confirm")
    (hin2 : o.routineReply.intent ≠ "reject") :
    handlePendingAction env o pa m u =
      { checkRoutineSchedule env o pa u with
        entered := FlowFlag.routineConfirmation :: (checkRoutineSchedule env o pa u).entered } := by
  unfold handlePendingAction
  simp [hRC, hin1, hin2]
theorem checkMissingFields_pending_isSome (env : JsEnv) (o : GatewayOracle) (pa : PendingAction) (u : String) :
    (checkMissingFields env o pa u).pendingAction.isSome := by
  unfold checkMissingFields
  dsimp only
  repeat' split
  all_goals rfl

theorem checkMissingFields_none_eq (env : JsEnv) (o : GatewayOracle) (pa : PendingAction) (u : String)
    (hMF : pa.missingFields = []) :
    checkMissingFields env o pa u = { result := none, pendingAction := some pa } := by
  unfold checkMissingFields
  simp [hMF]

theorem checkMissingFields_filled (env : JsEnv) (o : GatewayOracle) (pa : PendingAction) (u : String)
    (hMF : pa.missingFields ≠ []) (hAF : o.extractFields.allFieldsFilled = true) :
    checkMissingFields env o pa u =
      { result := some ⟨true,
          (prepareActionConfirmation env pa.type (shallowMerge pa.data o.extractFields.extractedData)).confirmationMessage,
          "confirm_action", .slot (shallowMerge pa.data o.extractFields.extractedData)⟩
        pendingAction := some (confirmPending pa.type (shallowMerge pa.data o.extractFields.extractedData))
        entered := [.missingInfo] } := by
  unfold checkMissingFields
  simp [hMF, hAF, confirmPending]

theorem checkMissingFields_not_filled (env : JsEnv) (o : GatewayOracle) (pa : PendingAction) (u : String)
    (hMF : pa.missingFields ≠ []) (hAF : o.extractFields.allFieldsFilled = false) :
    checkMissingFields env o pa u =
      { result := some ⟨true,
          generateMissingFieldsQuestion env o.extractFields.remainingFields (shallowMerge pa.data o.extractFields.extractedData),
          "needs_info", .missing o.extractFields.remainingFields (some o.extractFields.extractedData)⟩
        pendingAction := some { pa with
          data := shallowMerge pa.data o.extractFields.extractedData
          missingFields := o.extractFields.remainingFields }
        entered := [.missingInfo] } := by
  unfold checkMissingFields
  simp [hMF, hAF]

theorem checkConfirmation_cleared (env : JsEnv) (o : GatewayOracle) (pa : PendingAction) (u : String)
    (h : (checkConfirmation env o pa u).pendingAction = none) :
    (checkConfirmation env o pa u).result.map HPAResult.action = some "create_task_success" ∨
    (checkConfirmation env o pa u).result.map HPAResult.action = some "schedule_meeting_success" ∨
    (checkConfirmation env o pa u).result.map HPAResult.action = some "action_cancelled" := by
  by_cases hCN : pa.confirmationNeeded
  · by_cases hc : o.confirmReply.intent = "confirm"
    · cases hsv : o.saveResult with
      | none =>
        cases hty : pa.type with
        | create_task =>
          rw [checkConfirmation_confirm_task_ok env o pa u hCN hc hty hsv]
          left; rfl
        | schedule_meeting =>
          rw [checkConfirmation_confirm_meeting_ok env o pa u hCN hc hty hsv]
          right; left; rfl
      | some e =>
        rw [checkConfirmation_confirm_fail env o pa u e hCN hc hsv] at h
        simp at h
    · by_cases hr : o.confirmReply.intent = "reject"
      · rw [checkConfirmation_reject env o pa u hCN hr]
        right; right; rfl
      · by_cases hm : o.confirmReply.intent = "modify"
        · rw [checkConfirmation_modify env o pa u hCN hm] at h
          simp at h
        · rw [checkConfirmation_unclear env o pa u hCN hc hr hm] at h
          simp at h
  · rw [checkConfirmation_eq_of_not env o pa u (by simpa using hCN)] at h
    have hs := checkMissingFields_pending_isSome env o pa u
    rw [h] at hs
    simp at hs

theorem checkSpecificDays_cleared (env : JsEnv) (o : GatewayOracle) (pa : PendingAction) (u : String)
    (h : (checkSpecificDays env o pa u).pendingAction = none) :
    (checkSpecificDays env o pa u).result.map HPAResult.action = some "create_task_success" ∨
    (checkSpecificDays env o pa u).result.map HPAResult.action = some "schedule_meeting_success" ∨
    (checkSpecificDays env o pa u).result.map HPAResult.action = some "action_cancelled" := by
  by_cases hSD : pa.needsSpecificDays
  · by_cases hdays : o.daysPick.days = []
    · rw [checkSpecificDays_empty env o pa u hSD hdays] at h
      simp at h
    · rw [checkSpecificDays_days env o pa u hSD hdays] at h
      simp at h
  · rw [checkSpecificDays_eq_of_not env o pa u (by simpa using hSD)] at h ⊢
    exact checkConfirmation_cleared env o pa u h

theorem checkRoutineSchedule_cleared (env : JsEnv) (o : GatewayOracle) (pa : PendingAction) (u : String)
    (h : (checkRoutineSchedule env o pa u).pendingAction = none) :
    (checkRoutineSchedule env o pa u).result.map HPAResult.action = some "create_task_success" ∨
    (checkRoutineSchedule env o pa u).result.map HPAResult.action = some "schedule_meeting_success" ∨
    (checkRoutineSchedule env o pa u).result.map HPAResult.action = some "action_cancelled" := by
  by_cases hRS : pa.needsRoutineSchedule
  · by_cases hsp : o.schedulePick.scheduleType = "daily"
    · rw [checkRoutineSchedule_daily env o pa u hRS hsp] at h
      simp at h
    · by_cases hsp2 : o.schedulePick.scheduleType = "specific-days"
      · by_cases hdays : o.schedulePick.days = []
        · rw [checkRoutineSchedule_specific_empty env o pa u hRS hsp2 hdays] at h
          simp at h
        · rw [checkRoutineSchedule_specific_days env o pa u hRS hsp2 hdays] at h
          simp at h
      · rw [checkRoutineSchedule_unclear env o pa u hRS hsp hsp2] at h ⊢
        exact checkSpecificDays_cleared env o pa u h
  · rw [checkRoutineSchedule_eq_of_not env o pa u (by simpa using hRS)] at h ⊢
    exact checkSpecificDays_cleared env o pa u h

theorem handlePendingAction_cleared (env : JsEnv) (o : GatewayOracle) (pa : PendingAction) (m u : String)
    (h : (handlePendingAction env o pa m u).pendingAction = none) :
    (handlePendingAction env o pa m u).result.map HPAResult.action = some "create_task_success" ∨
    (handlePendingAction env o pa m u).result.map HPAResult.action = some "schedule_meeting_success" ∨
    (handlePendingAction env o pa m u).result.map HPAResult.action = some "action_cancelled" := by
  by_cases hRC : pa.needsRoutineConfirmation
  · by_cases hin : o.routineReply.intent = "confirm"
    · rw [handlePendingAction_routine_confirm env o pa m u hRC hin] at h
      simp at h
    · by_cases hin2 : o.routineReply.intent = "reject"
      · rw [handlePendingAction_routine_reject env o pa m u hRC hin2] at h
        simp at h
      · rw [handlePendingAction_routine_unclear env o pa m u hRC hin hin2] at h ⊢
        exact checkRoutineSchedule_cleared env o pa u h
  · rw [handlePendingAction_eq_of_not env o pa m u (by simpa using hRC)] at h ⊢
    exact checkRoutineSchedule_cleared env o pa u h
theorem checkMissingFields_result_none (env : JsEnv) (o : GatewayOracle) (pa : PendingAction) (u : String)
    (h : (checkMissingFields env o pa u).result = none) :
    (checkMissingFields env o pa u).pendingAction = some pa ∧ (checkMissingFields env o pa u).commits = [] := by
  by_cases hMF : pa.missingFields = []
  · rw [checkMissingFields_none_eq env o pa u hMF]
    exact ⟨rfl, rfl⟩
  · by_cases hAF : o.extractFields.allFieldsFilled
    · rw [checkMissingFields_filled env o pa u hMF hAF] at h
      simp at h
    · rw [checkMissingFields_not_filled env o pa u hMF (by simpa using hAF)] at h
      simp at h

theorem checkConfirmation_result_none (env : JsEnv) (o : GatewayOracle) (pa : PendingAction) (u : String)
    (h : (checkConfirmation env o pa u).result = none) :
    (checkConfirmation env o pa u).pendingAction = some pa ∧ (checkConfirmation env o pa u).commits = [] := by
  by_cases hCN : pa.confirmationNeeded
  · by_cases hc : o.confirmReply.intent = "confirm"
    · cases hsv : o.saveResult with
      | none =>
        cases hty : pa.type with
        | create_task => rw [checkConfirmation_confirm_task_ok env o pa u hCN hc hty hsv] at h; simp at h
        | schedule_meeting => rw [checkConfirmation_confirm_meeting_ok env o pa u hCN hc hty hsv] at h; simp at h
      | some e => rw [checkConfirmation_confirm_fail env o pa u e hCN hc hsv] at h; simp at h
    · by_cases hr : o.confirmReply.intent = "reject"
      · rw [checkConfirmation_reject env o pa u hCN hr] at h; simp at h
      · by_cases hm : o.confirmReply.intent = "modify"
        · rw [checkConfirmation_modify env o pa u hCN hm] at h; simp at h
        · rw [checkConfirmation_unclear env o pa u hCN hc hr hm] at h; simp at h
  · rw [checkConfirmation_eq_of_not env o pa u (by simpa using hCN)] at h ⊢
    exact checkMissingFields_result_none env o pa u h

theorem checkSpecificDays_result_none (env : JsEnv) (o : GatewayOracle) (pa : PendingAction) (u : String)
    (h : (checkSpecificDays env o pa u).result = none) :
    (checkSpecificDays env o pa u).pendingAction = some pa ∧ (checkSpecificDays env o pa u).commits = [] := by
  by_cases hSD : pa.needsSpecificDays
  · by_cases hdays : o.daysPick.days = []
    · rw [checkSpecificDays_empty env o pa u hSD hdays] at h; simp at h
    · rw [checkSpecificDays_days env o pa u hSD hdays] at h; simp at h
  · rw [checkSpecificDays_eq_of_not env o pa u (by simpa using hSD)] at h ⊢
    exact checkConfirmation_result_none env o pa u h

theorem checkRoutineSchedule_result_none (env : JsEnv) (o : GatewayOracle) (pa : PendingAction) (u : String)
    (h : (checkRoutineSchedule env o pa u).result = none) :
    (checkRoutineSchedule env o pa u).pendingAction = some pa ∧ (checkRoutineSchedule env o pa u).commits = [] := by
  by_cases hRS : pa.needsRoutineSchedule
  · by_cases hsp : o.schedulePick.scheduleType = "daily"
    · rw [checkRoutineSchedule_daily env o pa u hRS hsp] at h; simp at h
    · by_cases hsp2 : o.schedulePick.scheduleType = "specific-days"
      · by_cases hdays : o.schedulePick.days = []
        · rw [checkRoutineSchedule_specific_empty env o pa u hRS hsp2 hdays] at h; simp at h
        · rw [checkRoutineSchedule_specific_days env o pa u hRS hsp2 hdays] at h; simp at h
      · rw [checkRoutineSchedule_unclear env o pa u hRS hsp hsp2] at h ⊢
        exact checkSpecificDays_result_none env o pa u h
  · rw [checkRoutineSchedule_eq_of_not env o pa u (by simpa using hRS)] at h ⊢
    exact checkSpecificDays_result_none env o pa u h

theorem handlePendingAction_result_none (env : JsEnv) (o : GatewayOracle) (pa : PendingAction) (m u : String)
    (h : (handlePendingAction env o pa m u).result = none) :
    (handlePendingAction env o pa m u).pendingAction = some pa ∧
    (handlePendingAction env o pa m u).commits = [] := by
  by_cases hRC : pa.needsRoutineConfirmation
  · by_cases hin : o.routineReply.intent = "confirm"
    · rw [handlePendingAction_routine_confirm env o pa m u hRC hin] at h; simp at h
    · by_cases hin2 : o.routineReply.intent = "reject"
      · rw [handlePendingAction_routine_reject env o pa m u hRC hin2] at h; simp at h
      · rw [handlePendingAction_routine_unclear env o pa m u hRC hin hin2] at h ⊢
        exact checkRoutineSchedule_result_none env o pa u h
  · rw [handlePendingAction_eq_of_not env o pa m u (by simpa using hRC)] at h ⊢
    exact checkRoutineSchedule_result_none env o pa u h

theorem checkSpecificDays_missingInfo_notin (env : JsEnv) (o : GatewayOracle) (pa : PendingAction) (u : String)
    (hCN : pa.confirmationNeeded = true) :
    FlowFlag.missingInfo ∉ (checkSpecificDays env o pa u).entered := by
  by_cases hSD : pa.needsSpecificDays
  · rw [checkSpecificDays_entered_of env o pa u hSD]
    simp
  · rw [checkSpecificDays_eq_of_not env o pa u (by simpa using hSD),
        checkConfirmation_entered_of env o pa u hCN]
    simp

theorem checkRoutineSchedule_missingInfo_notin (env : JsEnv) (o : GatewayOracle) (pa : PendingAction) (u : String)
    (hCN : pa.confirmationNeeded = true) :
    FlowFlag.missingInfo ∉ (checkRoutineSchedule env o pa u).entered := by
  by_cases hRS : pa.needsRoutineSchedule
  · rcases checkRoutineSchedule_entered_shape env o pa u hRS with hsh | hsh <;> rw [hsh]
    · simp
    · intro hmem
      rcases List.mem_cons.mp hmem with he | hm
      · exact absurd he (by decide)
      · exact checkSpecificDays_missingInfo_notin env o pa u hCN hm
  · rw [checkRoutineSchedule_eq_of_not env o pa u (by simpa using hRS)]
    exact checkSpecificDays_missingInfo_notin env o pa u hCN

theorem handlePendingAction_missingInfo_notin (env : JsEnv) (o : GatewayOracle) (pa : PendingAction) (m u : String)
    (hCN : pa.confirmationNeeded = true) :
    FlowFlag.missingInfo ∉ (handlePendingAction env o pa m u).entered := by
  by_cases hRC : pa.needsRoutineConfirmation
  · rcases handlePendingAction_entered_shape env o pa m u hRC with hsh | hsh <;> rw [hsh]
    · simp
    · intro hmem
      rcases List.mem_cons.mp hmem with he | hm
      · exact absurd he (by decide)
      · exact checkRoutineSchedule_missingInfo_notin env o pa u hCN hm
  · rw [handlePendingAction_eq_of_not env o pa m u (by simpa using hRC)]
    exact checkRoutineSchedule_missingInfo_notin env o pa u hCN

theorem handlePendingAction_entered_head (env : JsEnv) (o : GatewayOracle) (pa : PendingAction) (m u : String) :
    (handlePendingAction env o pa m u).entered.head? = firstActiveFlag pa := by
  by_cases hRC : pa.needsRoutineConfirmation
  · rcases handlePendingAction_entered_shape env o pa m u hRC with h | h <;>
      rw [h] <;> simp [firstActiveFlag, hRC]
  · rw [handlePendingAction_eq_of_not env o pa m u (by simpa using hRC)]
    by_cases hRS : pa.needsRoutineSchedule
    · rcases checkRoutineSchedule_entered_shape env o pa u hRS with h | h <;>
        rw [h] <;> simp [firstActiveFlag, hRC, hRS]
    · rw [checkRoutineSchedule_eq_of_not env o pa u (by simpa using hRS)]
      by_cases hSD : pa.needsSpecificDays
      · rw [checkSpecificDays_entered_of env o pa u hSD]
        simp [firstActiveFlag, hRC, hRS, hSD]
      · rw [checkSpecificDays_eq_of_not env o pa u (by simpa using hSD)]
        by_cases hCN : pa.confirmationNeeded
        · rw [checkConfirmation_entered_of env o pa u hCN]
          simp [firstActiveFlag, hRC, hRS, hSD, hCN]
        · rw [checkConfirmation_eq_of_not env o pa u (by simpa using hCN),
              checkMissingFields_entered]
          by_cases hMF : pa.missingFields = [] <;>
            simp [firstActiveFlag, hRC, hRS, hSD, hCN, hMF]
theorem detectAction_arg_irrelevant (env : JsEnv) (o : GatewayOracle) (ar ar2 um : String) :
    detectAction env o ar um = detectAction env o ar2 um := rfl

theorem chatTurn_pending_handled (env : JsEnv) (o : GatewayOracle) (conv : Conversation)
    (m u : String) (pa : PendingAction) (r : HPAResult)
    (hpa : conv.pendingAction = some pa)
    (hr : (handlePendingAction env o pa m u).result = some r) :
    chatTurn env o (some conv) m u =
      { conversation := { messages := conv.messages ++ [⟨"user", m⟩, ⟨"assistant", r.response⟩]
                          pendingAction := (handlePendingAction env o pa m u).pendingAction }
        result := ⟨r.success, r.response, some r.action, r.data⟩
        commits := (handlePendingAction env o pa m u).commits } := by
  unfold chatTurn
  simp [hpa, hr]

theorem chatTurn_pending_fallthrough (env : JsEnv) (o : GatewayOracle) (conv : Conversation)
    (m u : String) (pa : PendingAction)
    (hpa : conv.pendingAction = some pa)
    (hr : (handlePendingAction env o pa m u).result = none) :
    chatTurn env o (some conv) m u =
      freshDetection env o { conv with messages := conv.messages ++ [⟨"user", m⟩] } m := by
  unfold chatTurn
  simp [hpa, hr]

theorem chatTurn_no_pending (env : JsEnv) (o : GatewayOracle) (conv : Conversation) (m u : String)
    (hpa : conv.pendingAction = none) :
    chatTurn env o (some conv) m u =
      freshDetection env o { conv with messages := conv.messages ++ [⟨"user", m⟩] } m := by
  unfold chatTurn
  simp [hpa]

theorem freshDetection_no_action (env : JsEnv) (o : GatewayOracle) (conv2 : Conversation) (m : String)
    (hd : detectAction env o "" m = none) :
    freshDetection env o conv2 m =
      { conversation := { conv2 with messages := conv2.messages ++ [⟨"assistant", o.chatReply⟩] }
        result := ⟨true, o.chatReply, none, .noData⟩ } := by
  unfold freshDetection
  have hd2 : detectAction env o ((conv2.messages.getLast?.map ChatMessage.content).getD "") m = none := hd
  simp only [hd2]

theorem freshDetection_routine_confirmation (env : JsEnv) (o : GatewayOracle) (conv2 : Conversation)
    (m : String) (act : DetectedAction)
    (hd : detectAction env o "" m = some act) (hk : act.needsRoutineConfirmation = true) :
    freshDetection env o conv2 m =
      { conversation := { conv2 with pendingAction := some ⟨act.type, act.data, true, false, false, false, []⟩ }
        result := ⟨true, act.question, some "needs_routine_confirmation", .slot act.data⟩ } := by
  unfold freshDetection
  have hd2 : detectAction env o ((conv2.messages.getLast?.map ChatMessage.content).getD "") m = some act := hd
  simp only [hd2, hk]
  simp

theorem freshDetection_needs_info (env : JsEnv) (o : GatewayOracle) (conv2 : Conversation)
    (m : String) (act : DetectedAction)
    (hd : detectAction env o "" m = some act) (hk : act.needsRoutineConfirmation = false)
    (hk2 : act.needsMoreInfo = true) :
    freshDetection env o conv2 m =
      { conversation := { conv2 with pendingAction := some ⟨act.type, act.data, false, false, false, false, act.missingFields⟩ }
        result := ⟨true, act.question, some "needs_info", .missing act.missingFields none⟩ } := by
  unfold freshDetection
  have hd2 : detectAction env o ((conv2.messages.getLast?.map ChatMessage.content).getD "") m = some act := hd
  simp only [hd2, hk, hk2]
  simp

theorem freshDetection_confirm (env : JsEnv) (o : GatewayOracle) (conv2 : Conversation)
    (m : String) (act : DetectedAction)
    (hd : detectAction env o "" m = some act) (hk : act.needsRoutineConfirmation = false)
    (hk2 : act.needsMoreInfo = false) (hk3 : act.confirmationNeeded = true) :
    freshDetection env o conv2 m =
      { conversation := { conv2 with pendingAction := some ⟨act.type, act.data, false, false, false, true, []⟩ }
        result := ⟨true, act.confirmationMessage, some "confirm_action", .slot act.data⟩ } := by
  unfold freshDetection
  have hd2 : detectAction env o ((conv2.messages.getLast?.map ChatMessage.content).getD "") m = some act := hd
  simp only [hd2, hk, hk2, hk3]
  simp
theorem freshDetection_commits (env : JsEnv) (o : GatewayOracle) (conv2 : Conversation) (m : String) :
    (freshDetection env o conv2 m).commits = [] := by
  unfold freshDetection
  dsimp only
  repeat' split
  all_goals rfl

theorem freshDetection_pending_isSome (env : JsEnv) (o : GatewayOracle) (conv2 : Conversation) (m : String)
    (h : conv2.pendingAction.isSome) :
    ((freshDetection env o conv2 m).conversation.pendingAction).isSome := by
  unfold freshDetection
  dsimp only
  repeat' split
  all_goals simp_all

theorem freshDetection_count (env : JsEnv) (o : GatewayOracle) (conv2 : Conversation) (m : String)
    (hpre : ∀ pa0, conv2.pendingAction = some pa0 → activeFlagCount pa0 = 1) :
    ∀ pa', (freshDetection env o conv2 m).conversation.pendingAction = some pa' →
      activeFlagCount pa' = 1 := by
  intro pa' h
  unfold freshDetection at h
  cases hd : detectAction env o ((conv2.messages.getLast?.map ChatMessage.content).getD "") m with
  | none =>
    rw [hd] at h
    dsimp only at h
    exact hpre pa' h
  | some act =>
    rw [hd] at h
    dsimp only at h
    by_cases hk : act.needsRoutineConfirmation
    · simp only [hk, if_true] at h
      simp at h
      subst h
      simp [activeFlagCount]
    · simp only [hk] at h
      rw [if_neg (by simp)] at h
      by_cases hk2 : act.needsMoreInfo
      · simp only [hk2, if_true] at h
        simp at h
        subst h
        have hmf := detectAction_needsMoreInfo_missing env o _ m act hd hk2
        simp [activeFlagCount, hmf]
      · simp only [hk2] at h
        rw [if_neg (by simp)] at h
        by_cases hk3 : act.confirmationNeeded
        · simp only [hk3, if_true] at h
          simp at h
          subst h
          simp [activeFlagCount]
        · simp only [hk3] at h
          rw [if_neg (by simp)] at h
          exact hpre pa' h
/-- Claim C1: whenever a stored PendingAction exists, `handlePendingAction`
checks the flow flags in the fixed order needsRoutineConfirmation,
needsRoutineSchedule, needsSpecificDays, confirmationNeeded, missingFields and
dispatches to the sub-flow of the first set flag (the first branch entered is
exactly the first active flag); in particular, when `confirmationNeeded` is
set, the missing-fields branch is never handled, whatever other flags are also
set. -/
theorem C1_dispatch_precedence (env : JsEnv) (o : GatewayOracle) (pa : PendingAction) (m u : String) :
    (handlePendingAction env o pa m u).entered.head? = firstActiveFlag pa ∧
    (pa.confirmationNeeded = true →
      FlowFlag.missingInfo ∉ (handlePendingAction env o pa m u).entered) :=
  ⟨handlePendingAction_entered_head env o pa m u,
   fun hCN => handlePendingAction_missingInfo_notin env o pa m u hCN⟩

/-- Witness for C1 at a malformed multi-flag pending action with both
`confirmationNeeded` set and a non-empty `missingFields`. -/
theorem C1_dispatch_precedence_witness :
    (handlePendingAction env0 {} ⟨.create_task, {}, false, false, false, true, ["title"]⟩ "m" "u").entered.head?
        = firstActiveFlag ⟨.create_task, {}, false, false, false, true, ["title"]⟩ ∧
    FlowFlag.missingInfo ∉
      (handlePendingAction env0 {} ⟨.create_task, {}, false, false, false, true, ["title"]⟩ "m" "u").entered :=
  ⟨(C1_dispatch_precedence env0 {} ⟨.create_task, {}, false, false, false, true, ["title"]⟩ "m" "u").1,
   (C1_dispatch_precedence env0 {} ⟨.create_task, {}, false, false, false, true, ["title"]⟩ "m" "u").2 rfl⟩

/-- A meeting slot set whose scheduleTime is present (fixed clock time and an
explicit lead), used to exhibit the createMeeting scheduleTime override. -/
def meetingSlotC2 : SlotSet :=
  { title := some "Weekly Sync", description := some "Team weekly sync",
    startTime := some "2025-10-27T09:00:00.000Z", duration := some 45,
    scheduleTime := some ⟨some "09:00", some 5⟩ }

/-- Claim C2 (code bug): the effective `createMeeting` (the later duplicate
declaration, which wins under JS hoisting) discards a present `scheduleTime`
of the confirmed slot set and persists the hard-coded default
`{minutesBeforeStart: 10}`, while the earlier shadowed declaration (and the
spec) keep the slot set's value. -/
theorem C2_meeting_scheduleTime_overridden :
    meetingSlotC2.scheduleTime = some ⟨some "09:00", some 5⟩ ∧
    (createMeeting env0 meetingSlotC2 "u1").scheduleTime = ⟨none, some 10⟩ ∧
    (createMeetingShadowedDecl env0 meetingSlotC2 "u1").scheduleTime = ⟨some "09:00", some 5⟩ :=
  ⟨rfl, rfl, rfl⟩

/-- Claim C3: on a turn whose conversation has no stored PendingAction, no
Task or Meeting record is committed, whatever the gateway returns — record
creation lives only in the confirmation branch of pending-action handling,
which is unreachable without a stored PendingAction. -/
theorem C3_no_pending_no_commit (env : JsEnv) (o : GatewayOracle) (conv : Conversation) (m u : String)
    (h : conv.pendingAction = none) :
    (chatTurn env o (some conv) m u).commits = [] := by
  rw [chatTurn_no_pending env o conv m u h]
  exact freshDetection_commits env o _ m

/-- Witness for C3: a confirm-style reply with no pending action commits
nothing, even when intent detection fires. -/
theorem C3_no_pending_no_commit_witness :
    (chatTurn env0
      { detect := some { intent := "task", data := { title := some "Call John" }, confidence := 95 } }
      (some ⟨[], none⟩) "yes" "u1").commits = [] :=
  C3_no_pending_no_commit env0
    { detect := some { intent := "task", data := { title := some "Call John" }, confidence := 95 } }
    ⟨[], none⟩ "yes" "u1" rfl

/-- Pending data of the C4 counterexample: full slot set with a scheduleTime
holding both a fixed time and a reminder lead. -/
def dC4 : SlotSet :=
  { title := some "Call John", description := some "Phone call",
    startDateISO := some "2025-10-27T09:00:00.000Z",
    scheduleType := some "one-day", scheduleDays := some [],
    scheduleTime := some ⟨some "09:00", some 15⟩, isRoutine := some false }

/-- A modify result supplying only a new scheduleTime with just the fixed
time (no minutesBeforeStart component). -/
def mC4 : SlotSet := { scheduleTime := some ⟨some "18:00", none⟩ }

/-- The pending action of the C4 counterexample (confirmation turn). -/
def paC4 : PendingAction := { type := .create_task, data := dC4, confirmationNeeded := true }

/-- The oracle of the C4 counterexample: the reply classifies as modify with
modifications `mC4`. -/
def oC4 : GatewayOracle := { confirmReply := { intent := "modify", modifications := mC4 } }

/-- Counterexample to C4 as stated: on a modify reply whose modifications
carry a scheduleTime with only `fixedTime`, the stored pending data's
scheduleTime is replaced wholesale — its `minutesBeforeStart` is dropped —
whereas the field-by-field merge the claim describes would have kept it. -/
theorem C4_counterexample_scheduleTime_replaced :
    ((chatTurn env0 oC4 (some ⟨[], some paC4⟩) "make it 6pm" "u1").conversation.pendingAction.map
        fun p => p.data.scheduleTime) = some (some ⟨some "18:00", none⟩) ∧
    paC4.data.scheduleTime = some ⟨some "09:00", some 15⟩ ∧
    (specMergeFieldwise dC4 mC4).scheduleTime = some ⟨some "18:00", some 15⟩ := by
  refine ⟨?_, rfl, rfl⟩
  rfl

/-- Claim C4 (amended): a modify reply merges the modifications into the
pending data with a shallow, presence-based merge — every top-level field not
mentioned in the modifications keeps its previous value, but nested objects
such as scheduleTime are replaced wholesale when supplied, not merged
field-by-field — the summary is re-rendered from the merged data, and
`confirmationNeeded` stays true. -/
theorem C4_amended_shallow_merge (env : JsEnv) (o : GatewayOracle) (conv : Conversation)
    (m u : String) (pa : PendingAction)
    (hpa : conv.pendingAction = some pa)
    (hRC : pa.needsRoutineConfirmation = false) (hRS : pa.needsRoutineSchedule = false)
    (hSD : pa.needsSpecificDays = false) (hCN : pa.confirmationNeeded = true)
    (hmod : o.confirmReply.intent = "modify") :
    (chatTurn env o (some conv) m u).conversation.pendingAction =
      some { pa with data := shallowMerge pa.data o.confirmReply.modifications } ∧
    (chatTurn env o (some conv) m u).result.action = some "confirm_action" ∧
    (chatTurn env o (some conv) m u).result.response =
      "Got it! I\x27ve updated the details.\n\n" ++
        (prepareActionConfirmation env pa.type
          (shallowMerge pa.data o.confirmReply.modifications)).confirmationMessage ∧
    (o.confirmReply.modifications.title = none →
      (shallowMerge pa.data o.confirmReply.modifications).title = pa.data.title) ∧
    (o.confirmReply.modifications.startDateISO = none →
      (shallowMerge pa.data o.confirmReply.modifications).startDateISO = pa.data.startDateISO) ∧
    (o.confirmReply.modifications.scheduleTime = none →
      (shallowMerge pa.data o.confirmReply.modifications).scheduleTime = pa.data.scheduleTime) ∧
    (∀ st, o.confirmReply.modifications.scheduleTime = some st →
      (shallowMerge pa.data o.confirmReply.modifications).scheduleTime = some st) := by
  have hh : handlePendingAction env o pa m u = checkConfirmation env o pa u := by
    rw [handlePendingAction_eq_of_not env o pa m u hRC,
        checkRoutineSchedule_eq_of_not env o pa u hRS,
        checkSpecificDays_eq_of_not env o pa u hSD]
  have hcc := checkConfirmation_modify env o pa u hCN hmod
  have hr : (handlePendingAction env o pa m u).result =
      some ⟨true, "Got it! I\x27ve updated the details.\n\n" ++
        (prepareActionConfirmation env pa.type
          (shallowMerge pa.data o.confirmReply.modifications)).confirmationMessage,
        "confirm_action", .slot (shallowMerge pa.data o.confirmReply.modifications)⟩ := by
    rw [hh, hcc]
  rw [chatTurn_pending_handled env o conv m u pa _ hpa hr]
  refine ⟨?_, rfl, rfl, ?_, ?_, ?_, ?_⟩
  · show (handlePendingAction env o pa m u).pendingAction = _
    rw [hh, hcc]
  · intro h0
    simp [shallowMerge, pick, h0]
  · intro h0
    simp [shallowMerge, pick, h0]
  · intro h0
    simp [shallowMerge, pick, h0]
  · intro st h0
    simp [shallowMerge, pick, h0]

/-- Witness for C4 (amended) at a concrete modify turn. -/
theorem C4_amended_shallow_merge_witness :
    (chatTurn env0 oC4 (some ⟨[], some paC4⟩) "make it 6pm" "u1").conversation.pendingAction =
      some { paC4 with data := shallowMerge paC4.data oC4.confirmReply.modifications } ∧
    (chatTurn env0 oC4 (some ⟨[], some paC4⟩) "make it 6pm" "u1").result.action = some "confirm_action" ∧
    (shallowMerge paC4.data oC4.confirmReply.modifications).title = paC4.data.title := by
  have main := C4_amended_shallow_merge env0 oC4 ⟨[], some paC4⟩ "make it 6pm" "u1" paC4
    rfl rfl rfl rfl rfl rfl
  exact ⟨main.1, main.2.1, main.2.2.2.1 rfl⟩

/-- The stored pending action of the C5 counterexample: the routine
confirmation question is pending. -/
def paC5 : PendingAction :=
  { type := .create_task, data := { title := some "Gym Workout" }, needsRoutineConfirmation := true }

/-- The oracle of the C5 counterexample: the reply to the routine question is
classified unclear, and fresh intent detection then fires confidently on the
same message with full extraction. -/
def oC5 : GatewayOracle where
  routineReply := { intent := "unclear" }
  detect := some
    { intent := "task"
      data := { title := some "Write Report", startDateISO := some "2025-10-27T10:00:00.000Z" }
      missingFields := []
      confidence := 95 }

/-- Counterexample to C5 as stated: an unclear reply in the
routine-confirmation sub-flow is not re-prompted; the turn falls through to
fresh intent detection, which overwrites the stored PendingAction with a new
one (a different confirmation-needed action), abandoning the original. -/
theorem C5_counterexample_fallthrough_overwrite :
    (chatTurn env0 oC5 (some ⟨[], some paC5⟩) "hmm maybe" "u1").conversation.pendingAction ≠ some paC5 ∧
    ((chatTurn env0 oC5 (some ⟨[], some paC5⟩) "hmm maybe" "u1").conversation.pendingAction.map
        PendingAction.confirmationNeeded) = some true ∧
    ((chatTurn env0 oC5 (some ⟨[], some paC5⟩) "hmm maybe" "u1").conversation.pendingAction.map
        fun p => p.data.title) = some (some "Write Report") := by
  refine ⟨by decide, rfl, rfl⟩

/-- Claim C5 (amended): a stored PendingAction is cleared (set to absent) only
by a confirmed success or an explicit rejection — every other turn outcome
leaves some pending action in place (though unclear routine-flow replies fall
through to fresh detection, which may overwrite it with a new one). -/
theorem C5_amended_cleared_only_on_success_or_reject (env : JsEnv) (o : GatewayOracle)
    (conv : Conversation) (m u : String) (pa : PendingAction)
    (hpa : conv.pendingAction = some pa)
    (hclr : (chatTurn env o (some conv) m u).conversation.pendingAction = none) :
    (chatTurn env o (some conv) m u).result.action = some "create_task_success" ∨
    (chatTurn env o (some conv) m u).result.action = some "schedule_meeting_success" ∨
    (chatTurn env o (some conv) m u).result.action = some "action_cancelled" := by
  cases hr : (handlePendingAction env o pa m u).result with
  | some r =>
    rw [chatTurn_pending_handled env o conv m u pa r hpa hr] at hclr ⊢
    have hcl := handlePendingAction_cleared env o pa m u hclr
    rw [hr] at hcl
    simpa using hcl
  | none =>
    exfalso
    rw [chatTurn_pending_fallthrough env o conv m u pa hpa hr] at hclr
    have hs := freshDetection_pending_isSome env o
      { conv with messages := conv.messages ++ [⟨"user", m⟩] } m (by simp [hpa])
    rw [hclr] at hs
    simp at hs

/-- Witness for C5 (amended): a rejection on a confirmation turn clears the
pending action and the turn's tag is among the clearing outcomes. -/
theorem C5_amended_cleared_only_on_success_or_reject_witness :
    (chatTurn env0 { confirmReply := { intent := "reject" } }
      (some ⟨[], some paC4⟩) "no" "u1").result.action = some "create_task_success" ∨
    (chatTurn env0 { confirmReply := { intent := "reject" } }
      (some ⟨[], some paC4⟩) "no" "u1").result.action = some "schedule_meeting_success" ∨
    (chatTurn env0 { confirmReply := { intent := "reject" } }
      (some ⟨[], some paC4⟩) "no" "u1").result.action = some "action_cancelled" :=
  C5_amended_cleared_only_on_success_or_reject env0 { confirmReply := { intent := "reject" } }
    ⟨[], some paC4⟩ "no" "u1" paC4 rfl (by decide)

/-- Claim C6: if the storage commit throws during a confirmed creation, the
turn returns a creation_failed response whose text carries the underlying
error message, and the PendingAction persisted at the end of the turn is the
unchanged one (same type, data and confirmationNeeded flag), so a later
confirm reply can retry the commit. -/
theorem C6_storage_failure_preserves_pending (env : JsEnv) (o : GatewayOracle)
    (conv : Conversation) (m u e : String) (pa : PendingAction)
    (hpa : conv.pendingAction = some pa)
    (hRC : pa.needsRoutineConfirmation = false) (hRS : pa.needsRoutineSchedule = false)
    (hSD : pa.needsSpecificDays = false) (hCN : pa.confirmationNeeded = true)
    (hc : o.confirmReply.intent = "confirm") (hsv : o.saveResult = some e) :
    (chatTurn env o (some conv) m u).result.action = some "creation_failed" ∧
    (chatTurn env o (some conv) m u).result.response = "Sorry, I couldn\x27t create that. " ++ e ∧
    (chatTurn env o (some conv) m u).result.success = false ∧
    (chatTurn env o (some conv) m u).conversation.pendingAction = some pa ∧
    (chatTurn env o (some conv) m u).commits = [] := by
  have hh : handlePendingAction env o pa m u = checkConfirmation env o pa u := by
    rw [handlePendingAction_eq_of_not env o pa m u hRC,
        checkRoutineSchedule_eq_of_not env o pa u hRS,
        checkSpecificDays_eq_of_not env o pa u hSD]
  have hcc := checkConfirmation_confirm_fail env o pa u e hCN hc hsv
  have hr : (handlePendingAction env o pa m u).result =
      some ⟨false, "Sorry, I couldn\x27t create that. " ++ e, "creation_failed", .noData⟩ := by
    rw [hh, hcc]
  rw [chatTurn_pending_handled env o conv m u pa _ hpa hr]
  refine ⟨rfl, rfl, rfl, ?_, ?_⟩
  · show (handlePendingAction env o pa m u).pendingAction = some pa
    rw [hh, hcc]
  · show (handlePendingAction env o pa m u).commits = []
    rw [hh, hcc]

/-- Witness for C6 at a concrete failing commit. -/
theorem C6_storage_failure_preserves_pending_witness :
    (chatTurn env0 { confirmReply := { intent := "confirm" }, saveResult := some "database unavailable" }
      (some ⟨[], some paC4⟩) "yes" "u1").result.action = some "creation_failed" ∧
    (chatTurn env0 { confirmReply := { intent := "confirm" }, saveResult := some "database unavailable" }
      (some ⟨[], some paC4⟩) "yes" "u1").result.response =
        "Sorry, I couldn\x27t create that. " ++ "database unavailable" ∧
    (chatTurn env0 { confirmReply := { intent := "confirm" }, saveResult := some "database unavailable" }
      (some ⟨[], some paC4⟩) "yes" "u1").conversation.pendingAction = some paC4 := by
  have main := C6_storage_failure_preserves_pending env0
    { confirmReply := { intent := "confirm" }, saveResult := some "database unavailable" }
    ⟨[], some paC4⟩ "yes" "u1" "database unavailable" paC4 rfl rfl rfl rfl rfl rfl rfl
  exact ⟨main.1, main.2.1, main.2.2.2.1⟩

/-- The pending action of the C7 counterexample: slot filling in progress,
title still missing. -/
def paC7 : PendingAction := { type := .create_task, data := {}, missingFields := ["title"] }

/-- The oracle of the C7 counterexample: the extraction response reports the
fields not yet all filled but returns an empty remaining list (a shape the
gateway contract permits and the code does not validate). -/
def oC7 : GatewayOracle :=
  { extractFields := { extractedData := {}, allFieldsFilled := false, remainingFields := [] } }

/-- Counterexample to C7 as stated: after the missing-fields turn below, the
persisted PendingAction has an empty `missingFields` and no other flag set —
zero active flow flags, not exactly one. -/
theorem C7_counterexample_zero_flags :
    (chatTurn env0 oC7 (some ⟨[], some paC7⟩) "no idea" "u1").conversation.pendingAction =
      some ⟨.create_task, {}, false, false, false, false, []⟩ ∧
    activeFlagCount ⟨.create_task, {}, false, false, false, false, []⟩ = 0 := by
  exact ⟨rfl, rfl⟩

/-- Claim C7 (amended): provided every extraction response that reports
`allFieldsFilled = false` carries a non-empty `remainingFields` (the shape the
gateway is documented to produce), every PendingAction persisted at the end of
a turn has exactly one active flow flag, and each flag transition clears the
old flag when setting the new one; with an inconsistent extraction response
(`allFieldsFilled = false`, `remainingFields = []`) the missing-fields branch
can persist a PendingAction with no active flag. -/
theorem C7_amended_invariant_preserved (env : JsEnv) (o : GatewayOracle)
    (conv : Conversation) (m u : String)
    (hpre : ∀ pa0, conv.pendingAction = some pa0 → activeFlagCount pa0 = 1)
    (hwf : o.extractFields.allFieldsFilled = false → o.extractFields.remainingFields ≠ []) :
    ∀ pa', (chatTurn env o (some conv) m u).conversation.pendingAction = some pa' →
      activeFlagCount pa' = 1 := by
  intro pa' h
  cases hpa : conv.pendingAction with
  | none =>
    rw [chatTurn_no_pending env o conv m u hpa] at h
    refine freshDetection_count env o _ m ?_ pa' h
    intro pa0 hp
    rw [show ({ conv with messages := conv.messages ++ [⟨"user", m⟩] } : Conversation).pendingAction
          = conv.pendingAction from rfl, hpa] at hp
    cases hp
  | some pa0 =>
    have h1 := hpre pa0 hpa
    cases hr : (handlePendingAction env o pa0 m u).result with
    | some r =>
      rw [chatTurn_pending_handled env o conv m u pa0 r hpa hr] at h
      exact handlePendingAction_count env o pa0 m u h1 hwf pa' h
    | none =>
      rw [chatTurn_pending_fallthrough env o conv m u pa0 hpa hr] at h
      refine freshDetection_count env o _ m ?_ pa' h
      intro pa1 hp
      rw [show ({ conv with messages := conv.messages ++ [⟨"user", m⟩] } : Conversation).pendingAction
            = conv.pendingAction from rfl, hpa] at hp
      cases hp
      exact h1

/-- Witness for C7 (amended): a well-formed extraction turn from a one-flag
state persists exactly the confirmation-needed one-flag state. -/
theorem C7_amended_invariant_preserved_witness :
    activeFlagCount (confirmPending .create_task
      (shallowMerge paC7.data { title := some "Buy milk" })) = 1 := by
  refine C7_amended_invariant_preserved env0
    { extractFields := { extractedData := { title := some "Buy milk" }, allFieldsFilled := true } }
    ⟨[], some paC7⟩ "buy milk" "u1" ?_ ?_
    (confirmPending .create_task (shallowMerge paC7.data { title := some "Buy milk" })) ?_
  · intro pa0 hp
    cases hp
    rfl
  · intro hf
    simp at hf
  · rfl

/-- The pending action of the C8 theorems: specific days are being collected. -/
def paC8 : PendingAction :=
  { type := .create_task, data := { title := some "Gym Workout" }, needsSpecificDays := true }

/-- Counterexample to C8 as stated: the re-ask issued on an empty day
extraction is not the same prompt as the original specific-days question
issued by the routine-schedule branch — the two strings differ. -/
theorem C8_counterexample_retry_prompt_differs :
    ((handlePendingAction env0 { daysPick := { days := [] } } paC8 "some day" "u1").result.map
        HPAResult.response) = some specificDaysRetryPrompt ∧
    ((handlePendingAction env0 { schedulePick := { scheduleType := "specific-days", days := [] } }
        { paC8 with needsSpecificDays := false, needsRoutineSchedule := true } "specific days" "u1").result.map
        HPAResult.response) = some specificDaysPrompt ∧
    specificDaysRetryPrompt ≠ specificDaysPrompt := by
  exact ⟨rfl, rfl, by decide⟩

/-- Claim C8 (amended): in the specific-days-collecting state, an empty day
extraction re-asks (with a dedicated retry prompt, worded differently from the
original specific-days question) and leaves the PendingAction unchanged; a
non-empty extraction sets `scheduleType` to specific-days, `scheduleDays` to
the extracted set and `isRoutine` to true, and stores a PendingAction with
`confirmationNeeded = true`. -/
theorem C8_amended_specific_days (env : JsEnv) (o : GatewayOracle)
    (conv : Conversation) (m u : String) (pa : PendingAction)
    (hpa : conv.pendingAction = some pa)
    (hRC : pa.needsRoutineConfirmation = false) (hRS : pa.needsRoutineSchedule = false)
    (hSD : pa.needsSpecificDays = true) :
    (o.daysPick.days = [] →
      (chatTurn env o (some conv) m u).result.action = some "needs_specific_days" ∧
      (chatTurn env o (some conv) m u).result.response = specificDaysRetryPrompt ∧
      (chatTurn env o (some conv) m u).conversation.pendingAction = some pa) ∧
    (o.daysPick.days ≠ [] →
      (chatTurn env o (some conv) m u).result.action = some "confirm_action" ∧
      (chatTurn env o (some conv) m u).conversation.pendingAction =
        some (confirmPending .create_task (specificDaysData pa.data o.daysPick.days))) := by
  have hh : handlePendingAction env o pa m u = checkSpecificDays env o pa u := by
    rw [handlePendingAction_eq_of_not env o pa m u hRC,
        checkRoutineSchedule_eq_of_not env o pa u hRS]
  constructor
  · intro hdays
    have hcs := checkSpecificDays_empty env o pa u hSD hdays
    have hr : (handlePendingAction env o pa m u).result =
        some ⟨true, specificDaysRetryPrompt, "needs_specific_days", .slot pa.data⟩ := by
      rw [hh, hcs]
    rw [chatTurn_pending_handled env o conv m u pa _ hpa hr]
    refine ⟨rfl, rfl, ?_⟩
    show (handlePendingAction env o pa m u).pendingAction = some pa
    rw [hh, hcs]
  · intro hdays
    have hcs := checkSpecificDays_days env o pa u hSD hdays
    have hr : (handlePendingAction env o pa m u).result =
        some ⟨true,
          (prepareActionConfirmation env .create_task (specificDaysData pa.data o.daysPick.days)).confirmationMessage,
          "confirm_action", .slot (specificDaysData pa.data o.daysPick.days)⟩ := by
      rw [hh, hcs]
    rw [chatTurn_pending_handled env o conv m u pa _ hpa hr]
    refine ⟨rfl, ?_⟩
    show (handlePendingAction env o pa m u).pendingAction = _
    rw [hh, hcs]

/-- Witness for C8 (amended): both the empty-extraction re-ask and a
successful extraction of Monday and Wednesday. -/
theorem C8_amended_specific_days_witness :
    ((chatTurn env0 { daysPick := { days := [] } } (some ⟨[], some paC8⟩) "some day" "u1").result.action
        = some "needs_specific_days" ∧
      (chatTurn env0 { daysPick := { days := [] } } (some ⟨[], some paC8⟩) "some day" "u1").conversation.pendingAction
        = some paC8) ∧
    ((chatTurn env0 { daysPick := { days := ["MO", "WE"] } } (some ⟨[], some paC8⟩) "mon wed" "u1").result.action
        = some "confirm_action" ∧
      (chatTurn env0 { daysPick := { days := ["MO", "WE"] } } (some ⟨[], some paC8⟩) "mon wed" "u1").conversation.pendingAction
        = some (confirmPending .create_task (specificDaysData paC8.data ["MO", "WE"]))) := by
  have h1 := C8_amended_specific_days env0 { daysPick := { days := [] } }
    ⟨[], some paC8⟩ "some day" "u1" paC8 rfl rfl rfl rfl
  have h2 := C8_amended_specific_days env0 { daysPick := { days := ["MO", "WE"] } }
    ⟨[], some paC8⟩ "mon wed" "u1" paC8 rfl rfl rfl rfl
  exact ⟨⟨(h1.1 rfl).1, (h1.1 rfl).2.2⟩, ⟨(h2.2 (by decide)).1, (h2.2 (by decide)).2⟩⟩

/-- Claim C9: on a fresh turn with no PendingAction, a detection result whose
intent is `none` or whose confidence is below 50 is treated identically to no
detection at all — the whole turn equals the turn with a failed detection, no
PendingAction is stored, and the caller gets the plain conversational reply
with no action tag. -/
theorem C9_low_confidence_is_none (env : JsEnv) (o : GatewayOracle)
    (conv : Conversation) (m u : String)
    (hpa : conv.pendingAction = none)
    (hlow : o.detect = none ∨ ∃ a, o.detect = some a ∧ (a.intent = "none" ∨ a.confidence < 50)) :
    chatTurn env o (some conv) m u = chatTurn env { o with detect := none } (some conv) m u ∧
    (chatTurn env o (some conv) m u).conversation.pendingAction = none ∧
    (chatTurn env o (some conv) m u).result.action = none ∧
    (chatTurn env o (some conv) m u).result.response = o.chatReply := by
  have hg : detectActionWithGemini o = none := by
    unfold detectActionWithGemini
    rcases hlow with h | ⟨a, ha, hcase⟩
    · rw [h]
    · rw [ha]
      dsimp only
      rw [if_pos hcase]
  have hd : detectAction env o "" m = none := by
    unfold detectAction
    rw [hg]
  have hd2 : detectAction env { o with detect := none } "" m = none := rfl
  rw [chatTurn_no_pending env o conv m u hpa,
      chatTurn_no_pending env { o with detect := none } conv m u hpa,
      freshDetection_no_action env o _ m hd,
      freshDetection_no_action env { o with detect := none } _ m hd2]
  exact ⟨rfl, hpa, rfl, rfl⟩

/-- Witness for C9 at a 30-confidence task detection. -/
theorem C9_low_confidence_is_none_witness :
    (chatTurn env0
        { detect := some { intent := "task", data := { title := some "X" }, confidence := 30 }
          chatReply := "How can I help?" }
        (some ⟨[], none⟩) "maybe later" "u1").conversation.pendingAction = none ∧
    (chatTurn env0
        { detect := some { intent := "task", data := { title := some "X" }, confidence := 30 }
          chatReply := "How can I help?" }
        (some ⟨[], none⟩) "maybe later" "u1").result.action = none ∧
    (chatTurn env0
        { detect := some { intent := "task", data := { title := some "X" }, confidence := 30 }
          chatReply := "How can I help?" }
        (some ⟨[], none⟩) "maybe later" "u1").result.response = "How can I help?" := by
  have main := C9_low_confidence_is_none env0
    { detect := some { intent := "task", data := { title := some "X" }, confidence := 30 }
      chatReply := "How can I help?" }
    ⟨[], none⟩ "maybe later" "u1" rfl
    (Or.inr ⟨_, rfl, Or.inr (by decide)⟩)
  exact ⟨main.2.1, main.2.2.1, main.2.2.2⟩

/-- Claim C10 (implicit): on a fresh-detection turn that stores a new
PendingAction and returns a prompt, the assistant's question or summary is not
appended to the conversation's messages — only the user message is persisted —
whereas turns handled through an existing PendingAction and plain-chat turns
do append the assistant's response. -/
theorem C10_assistant_prompt_not_persisted (env : JsEnv) (o : GatewayOracle)
    (conv : Conversation) (m u : String) :
    (conv.pendingAction = none → ∀ act, detectAction env o "" m = some act →
      (chatTurn env o (some conv) m u).conversation.messages = conv.messages ++ [⟨"user", m⟩]) ∧
    (conv.pendingAction = none → detectAction env o "" m = none →
      (chatTurn env o (some conv) m u).conversation.messages =
        conv.messages ++ [⟨"user", m⟩, ⟨"assistant", o.chatReply⟩]) ∧
    (∀ pa r, conv.pendingAction = some pa → (handlePendingAction env o pa m u).result = some r →
      (chatTurn env o (some conv) m u).conversation.messages =
        conv.messages ++ [⟨"user", m⟩, ⟨"assistant", r.response⟩]) := by
  refine ⟨?_, ?_, ?_⟩
  · intro hpa act hd
    rw [chatTurn_no_pending env o conv m u hpa]
    by_cases hk1 : act.needsRoutineConfirmation
    · rw [freshDetection_routine_confirmation env o _ m act hd hk1]
    · by_cases hk2 : act.needsMoreInfo
      · rw [freshDetection_needs_info env o _ m act hd (by simpa using hk1) hk2]
      · have hk3 : act.confirmationNeeded = true := by
          rcases detectAction_kinds env o "" m act hd with h | h | h
          · exact absurd h (by simpa using hk1)
          · exact absurd h (by simpa using hk2)
          · exact h
        rw [freshDetection_confirm env o _ m act hd (by simpa using hk1) (by simpa using hk2) hk3]
  · intro hpa hd
    rw [chatTurn_no_pending env o conv m u hpa, freshDetection_no_action env o _ m hd]
    simp
  · intro pa r hpa hr
    rw [chatTurn_pending_handled env o conv m u pa r hpa hr]

/-- Witness for C10: a fresh confirmation-offering detection persists only the
user message; a failed detection and a pending-action turn persist the
assistant reply too. -/
theorem C10_assistant_prompt_not_persisted_witness :
    (chatTurn env0 oC5 (some ⟨[], none⟩) "write report" "u1").conversation.messages =
      [⟨"user", "write report"⟩] ∧
    (chatTurn env0 { chatReply := "Hi!" } (some ⟨[], none⟩) "hello" "u1").conversation.messages =
      [⟨"user", "hello"⟩, ⟨"assistant", "Hi!"⟩] ∧
    (chatTurn env0 { daysPick := { days := [] } } (some ⟨[], some paC8⟩) "some day" "u1").conversation.messages =
      [⟨"user", "some day"⟩, ⟨"assistant", specificDaysRetryPrompt⟩] := by
  refine ⟨?_, ?_, ?_⟩
  · rcases hact : detectAction env0 oC5 "" "write report" with _ | act
    · exact absurd hact (by decide)
    · exact (C10_assistant_prompt_not_persisted env0 oC5 ⟨[], none⟩ "write report" "u1").1 rfl act hact
  · exact (C10_assistant_prompt_not_persisted env0 { chatReply := "Hi!" }
      ⟨[], none⟩ "hello" "u1").2.1 rfl rfl
  · rcases hres : (handlePendingAction env0 { daysPick := { days := [] } } paC8 "some day" "u1").result
      with _ | r
    · exact absurd hres (by decide)
    · have hmsg := (C10_assistant_prompt_not_persisted env0 { daysPick := { days := [] } }
        ⟨[], some paC8⟩ "some day" "u1").2.2 paC8 r rfl hres
      have hre : r.response = specificDaysRetryPrompt := by
        have := checkSpecificDays_empty env0 { daysPick := { days := [] } } paC8 "u1" rfl rfl
        have hh : handlePendingAction env0 { daysPick := { days := [] } } paC8 "some day" "u1" =
            checkSpecificDays env0 { daysPick := { days := [] } } paC8 "u1" := by
          rw [handlePendingAction_eq_of_not env0 _ paC8 "some day" "u1" rfl,
              checkRoutineSchedule_eq_of_not env0 _ paC8 "u1" rfl]
        rw [hh, this] at hres
        cases hres
        rfl
      rw [hre] at hmsg
      exact hmsg
